import Mathlib

/-!
# XRaspiCameraConfig: the string-keyed property adapter of the Raspberry Pi camera

A shallow embedding of `src/core/cameras/RaspiCam/XRaspiCameraConfig.cpp`
(`SetProperty`, `GetProperty`, `GetAllProperties` and the static tables they use),
followed by the properties proved about it.

Conventions of the embedding:

* `std::string` is `String`; `value.c_str( )` is the list of characters before the first NUL.
* `std::map<string, T>` is a list of entries kept in ascending key order with unique keys.
* the camera object behind `mCamera` is a record of getters and setters over an explicit
  device state `σ`; a setter returns its status together with the next device state.
* `SetProperty` returns the next device state next to its result; `GetProperty` returns the
  content of its output string after the call next to its result.
-/

namespace XRaspiCameraConfig

/-! ## Types declared outside the translated file -/

/-- Modelled from the spec: the declaration of `XError` is in a header that is not among the
sources at hand. These are the four error kinds the spec lists and the file uses. -/
inductive XError
  | Success
  | Failed
  | UnknownProperty
  | InvalidPropertyValue
  deriving DecidableEq, Repr

/-- Modelled from the spec: the enum `AwbMode` is declared in XRaspiCamera.hpp, which is not
among the sources at hand. One value per enumerator the file names; `unlisted` stands for every
other value the enum type can hold (the spec's "value outside the supported set"). -/
inductive AwbMode
  | Off | Auto | Sunlight | Cloudy | Shade | Tungsten | Fluorescent | Incandescent | Flash
  | Horizon
  | unlisted (raw : Nat)
  deriving DecidableEq, Repr

/-- Modelled from the spec: the enum `ExposureMode` is declared in XRaspiCamera.hpp, which is not
among the sources at hand. One value per enumerator the file names; `unlisted` stands for every
other value the enum type can hold. -/
inductive ExposureMode
  | Off | Auto | Night | NightPreview | Backlight | Spotlight | Sports | Snow | Beach | VeryLong
  | FixedFps | AntiShake | FireWorks
  | unlisted (raw : Nat)
  deriving DecidableEq, Repr

/-- Modelled from the spec: the enum `ExposureMeteringMode` is declared in XRaspiCamera.hpp,
which is not among the sources at hand. One value per enumerator the file names; `unlisted`
stands for every other value the enum type can hold. -/
inductive ExposureMeteringMode
  | Average | Spot | Backlit | Matrix
  | unlisted (raw : Nat)
  deriving DecidableEq, Repr

/-- Modelled from the spec: the enum `ImageEffect` is declared in XRaspiCamera.hpp, which is not
among the sources at hand. One value per enumerator the file names; `unlisted` stands for every
other value the enum type can hold. -/
inductive ImageEffect
  | None | Negative | Solarize | Sketch | Denoise | Emboss | OilPaint | Hatch | Gpen | Pastel
  | WaterColor | Film | Blur | Saturation | ColorSwap | WashedOut | Posterise | ColorPoint
  | ColorBalance | Cartoon
  | unlisted (raw : Nat)
  deriving DecidableEq, Repr

/-- Modelled from the spec: the class `XRaspiCamera` is declared in XRaspiCamera.hpp, which is
not among the sources at hand. The record lists the member functions the adapter calls (spec §6:
a joint flip setter with one getter per axis, a boolean stabilisation setter and getter, integer
setters and getters, enum setters and getters; every setter returns a success status). Getters
read the device state `σ`; a setter returns its status and the next device state. -/
structure XRaspiCamera (σ : Type) where
  GetHorizontalFlip : σ → Bool
  GetVerticalFlip : σ → Bool
  SetCameraFlip : Bool → Bool → σ → Bool × σ
  GetVideoStabilisation : σ → Bool
  SetVideoStabilisation : Bool → σ → Bool × σ
  GetSharpness : σ → Int
  SetSharpness : Int → σ → Bool × σ
  GetContrast : σ → Int
  SetContrast : Int → σ → Bool × σ
  GetBrightness : σ → Int
  SetBrightness : Int → σ → Bool × σ
  GetSaturation : σ → Int
  SetSaturation : Int → σ → Bool × σ
  GetWhiteBalanceMode : σ → AwbMode
  SetWhiteBalanceMode : AwbMode → σ → Bool × σ
  GetExposureMode : σ → ExposureMode
  SetExposureMode : ExposureMode → σ → Bool × σ
  GetExposureMeteringMode : σ → ExposureMeteringMode
  SetExposureMeteringMode : ExposureMeteringMode → σ → Bool × σ
  GetImageEffect : σ → ImageEffect
  SetImageEffect : ImageEffect → σ → Bool × σ

/-! ## The C library calls the file makes -/

/-- The characters `value.c_str( )` exposes: everything before the first NUL. -/
def c_str (value : String) : List Char :=
  value.data.takeWhile (fun c => c.toNat != 0)

/-- The function `isspace` of the "C" locale: space, and the controls 9 (tab) to 13 (CR). -/
def isspace (c : Char) : Bool :=
  c.toNat == 32 || (9 ≤ c.toNat && c.toNat ≤ 13)

/-- The function `isdigit`: the ten characters 48 ('0') to 57 ('9'). -/
def isdigit (c : Char) : Bool :=
  48 ≤ c.toNat && c.toNat ≤ 57

/-- Smallest value of a 32 bit `int`. -/
def INT_MIN : Int := -2147483648

/-- Largest value of a 32 bit `int`. -/
def INT_MAX : Int := 2147483647

/-- Smallest value of a 64 bit `long`. -/
def LONG_MIN : Int := -9223372036854775808

/-- Largest value of a 64 bit `long`. -/
def LONG_MAX : Int := 9223372036854775807

/-- The `int` a decimal conversion stores for the number `n`. A number that fits is stored as
it is. For one that does not fit the C standard leaves the stored value open; the model follows
the C library where `long` has 64 bits: the digits are converted by `strtol`, which saturates at
the range of `long`, and the `long` is cut to its low 32 bits, read in two's complement. -/
def storeInt (n : Int) : Int :=
  let asLong := if n < LONG_MIN then LONG_MIN else if LONG_MAX < n then LONG_MAX else n
  (asLong + 2147483648) % 4294967296 - 2147483648

/-- The number a run of decimal digits denotes, most significant digit first, continuing
from `acc`. -/
def digitsValue (acc : Nat) : List Char → Nat
  | [] => acc
  | c :: rest => digitsValue (10 * acc + (c.toNat - 48)) rest

/-- What `sscanf( text, "%d", &numericValue )` leaves behind: the returned count and the
content of `numericValue` (which the call does not touch unless the count is 1; the file reads
it only in that case, and the model shows it as 0 otherwise). -/
structure Scanned where
  scannedCount : Int
  numericValue : Int
  deriving DecidableEq, Repr

/-- The call `sscanf( text, "%d", &numericValue )`: skip white space; at the end of the input
the result is `EOF` (-1); otherwise take an optional sign and the longest run of decimal digits
after it; without a digit nothing is converted (0), else the number is stored (1). What follows
the digits is not looked at. -/
def sscanf_d (text : List Char) : Scanned :=
  match text.dropWhile isspace with
  | [] => ⟨-1, 0⟩
  | c :: rest =>
    let body := if c.toNat == 45 || c.toNat == 43 then rest else c :: rest
    let digits := body.takeWhile isdigit
    if digits.isEmpty then ⟨0, 0⟩
    else
      let magnitude : Int := digitsValue 0 digits
      ⟨1, storeInt (if c.toNat == 45 then -magnitude else magnitude)⟩

/-- The call `sprintf( buffer, "%d", numericValue )`: decimal text, a minus sign in front of a
negative number, no padding. -/
def sprintf_d (numericValue : Int) : String :=
  if numericValue < 0 then "-" ++ Nat.repr numericValue.natAbs else Nat.repr numericValue.natAbs

/-! ## `std::map<string, T>` -/

/-- The order `std::less<std::string>` puts on keys: lexicographic on the character codes, a
proper prefix first. -/
def stringLess : List Char → List Char → Bool
  | _, [] => false
  | [], _ :: _ => true
  | a :: as, b :: bs => a.toNat < b.toNat || (a.toNat == b.toNat && stringLess as bs)

namespace StdMap

/-- The member `insert`: put the entry at its place in key order; a key already present keeps
its entry and the new one is dropped. -/
def insert {β : Type} (entry : String × β) : List (String × β) → List (String × β)
  | [] => [entry]
  | e :: rest =>
    if entry.1 = e.1 then e :: rest
    else if stringLess entry.1.data e.1.data then entry :: e :: rest
    else e :: insert entry rest

/-- Construction from an initializer list: the entries are inserted one after the other. -/
def ofList {β : Type} (entries : List (String × β)) : List (String × β) :=
  entries.foldl (fun m entry => insert entry m) []

/-- The member `find`: the entry with exactly this key, or nothing (`end( )`). -/
def find {β : Type} (key : String) : List (String × β) → Option (String × β)
  | [] => none
  | e :: rest => if e.1 = key then some e else find key rest

end StdMap

/-! ## The static tables of the file -/

def PROP_HFLIP : String := "hflip"
def PROP_VFLIP : String := "vflip"
def PROP_VIDEO_STABILISATION : String := "videostabilisation"
def PROP_SHARPNESS : String := "sharpness"
def PROP_CONTRAST : String := "contrast"
def PROP_BRIGHTNESS : String := "brightness"
def PROP_SATURATION : String := "saturation"
def PROP_AWBMODE : String := "awb"
def PROP_EXPMODE : String := "expmode"
def PROP_EXPMETERINGMODE : String := "expmeteringmode"
def PROP_EFFECT : String := "effect"

/-- The array `SupportedProperties`, in declaration order. -/
def SupportedProperties : List String :=
  [ PROP_HFLIP, PROP_VFLIP, PROP_VIDEO_STABILISATION,
    PROP_SHARPNESS, PROP_CONTRAST, PROP_BRIGHTNESS, PROP_SATURATION,
    PROP_AWBMODE, PROP_EXPMODE, PROP_EXPMETERINGMODE, PROP_EFFECT ]

/-- The map `SupportedAwbModes`. -/
def SupportedAwbModes : List (String × AwbMode) :=
  StdMap.ofList
    [ ("Off", AwbMode.Off),
      ("Auto", AwbMode.Auto),
      ("Sunlight", AwbMode.Sunlight),
      ("Cloudy", AwbMode.Cloudy),
      ("Shade", AwbMode.Shade),
      ("Tungsten", AwbMode.Tungsten),
      ("Fluorescent", AwbMode.Fluorescent),
      ("Incandescent", AwbMode.Incandescent),
      ("Flash", AwbMode.Flash),
      ("Horizon", AwbMode.Horizon) ]

/-- The map `SupportedExposureModes`. -/
def SupportedExposureModes : List (String × ExposureMode) :=
  StdMap.ofList
    [ ("Off", ExposureMode.Off),
      ("Auto", ExposureMode.Auto),
      ("Night", ExposureMode.Night),
      ("NightPreview", ExposureMode.NightPreview),
      ("Backlight", ExposureMode.Backlight),
      ("Spotlight", ExposureMode.Spotlight),
      ("Sports", ExposureMode.Sports),
      ("Snow", ExposureMode.Snow),
      ("Beach", ExposureMode.Beach),
      ("VeryLong", ExposureMode.VeryLong),
      ("FixedFps", ExposureMode.FixedFps),
      ("AntiShake", ExposureMode.AntiShake),
      ("FireWorks", ExposureMode.FireWorks) ]

/-- The map `SupportedExposureMeteringModes`. -/
def SupportedExposureMeteringModes : List (String × ExposureMeteringMode) :=
  StdMap.ofList
    [ ("Average", ExposureMeteringMode.Average),
      ("Spot", ExposureMeteringMode.Spot),
      ("Backlit", ExposureMeteringMode.Backlit),
      ("Matrix", ExposureMeteringMode.Matrix) ]

/-- The map `SupportedImageEffects`. -/
def SupportedImageEffects : List (String × ImageEffect) :=
  StdMap.ofList
    [ ("None", ImageEffect.None),
      ("Negative", ImageEffect.Negative),
      ("Solarize", ImageEffect.Solarize),
      ("Sketch", ImageEffect.Sketch),
      ("Denoise", ImageEffect.Denoise),
      ("Emboss", ImageEffect.Emboss),
      ("OilPaint", ImageEffect.OilPaint),
      ("Hatch", ImageEffect.Hatch),
      ("Gpen", ImageEffect.Gpen),
      ("Pastel", ImageEffect.Pastel),
      ("WaterColor", ImageEffect.WaterColor),
      ("Film", ImageEffect.Film),
      ("Blur", ImageEffect.Blur),
      ("Saturation", ImageEffect.Saturation),
      ("ColorSwap", ImageEffect.ColorSwap),
      ("WashedOut", ImageEffect.WashedOut),
      ("Posterise", ImageEffect.Posterise),
      ("ColorPoint", ImageEffect.ColorPoint),
      ("ColorBalance", ImageEffect.ColorBalance),
      ("Cartoon", ImageEffect.Cartoon) ]

/-! ## The member functions -/

/-- The tail of `SetProperty`: a failed setter turns a `Success` into `Failed`. -/
def setResult (ret : XError) (propStatus : Bool) : XError :=
  if ret = XError.Success ∧ propStatus = false then XError.Failed else ret

/-- The member `XRaspiCameraConfig::SetProperty`: the result and the device state after the
call. -/
def SetProperty {σ : Type} (mCamera : XRaspiCamera σ) (propertyName value : String) (s : σ) :
    XError × σ :=
  let scanned := sscanf_d (c_str value)
  if propertyName = PROP_HFLIP then
    let hflip := value == "1" || value == "true"
    let vflip := mCamera.GetVerticalFlip s
    let r := mCamera.SetCameraFlip hflip vflip s
    (setResult XError.Success r.1, r.2)
  else if propertyName = PROP_VFLIP then
    let vflip := value == "1" || value == "true"
    let hflip := mCamera.GetHorizontalFlip s
    let r := mCamera.SetCameraFlip hflip vflip s
    (setResult XError.Success r.1, r.2)
  else if propertyName = PROP_VIDEO_STABILISATION then
    let r := mCamera.SetVideoStabilisation (value == "1" || value == "true") s
    (setResult XError.Success r.1, r.2)
  else if propertyName = PROP_SHARPNESS then
    if scanned.scannedCount = 1 then
      let r := mCamera.SetSharpness scanned.numericValue s
      (setResult XError.Success r.1, r.2)
    else (setResult XError.InvalidPropertyValue true, s)
  else if propertyName = PROP_CONTRAST then
    if scanned.scannedCount = 1 then
      let r := mCamera.SetContrast scanned.numericValue s
      (setResult XError.Success r.1, r.2)
    else (setResult XError.InvalidPropertyValue true, s)
  else if propertyName = PROP_BRIGHTNESS then
    if scanned.scannedCount = 1 then
      let r := mCamera.SetBrightness scanned.numericValue s
      (setResult XError.Success r.1, r.2)
    else (setResult XError.InvalidPropertyValue true, s)
  else if propertyName = PROP_SATURATION then
    if scanned.scannedCount = 1 then
      let r := mCamera.SetSaturation scanned.numericValue s
      (setResult XError.Success r.1, r.2)
    else (setResult XError.InvalidPropertyValue true, s)
  else if propertyName = PROP_AWBMODE then
    match StdMap.find value SupportedAwbModes with
    | none => (setResult XError.InvalidPropertyValue true, s)
    | some itMode =>
      let r := mCamera.SetWhiteBalanceMode itMode.2 s
      (setResult XError.Success r.1, r.2)
  else if propertyName = PROP_EXPMODE then
    match StdMap.find value SupportedExposureModes with
    | none => (setResult XError.InvalidPropertyValue true, s)
    | some itMode =>
      let r := mCamera.SetExposureMode itMode.2 s
      (setResult XError.Success r.1, r.2)
  else if propertyName = PROP_EXPMETERINGMODE then
    match StdMap.find value SupportedExposureMeteringModes with
    | none => (setResult XError.InvalidPropertyValue true, s)
    | some itMode =>
      let r := mCamera.SetExposureMeteringMode itMode.2 s
      (setResult XError.Success r.1, r.2)
  else if propertyName = PROP_EFFECT then
    match StdMap.find value SupportedImageEffects with
    | none => (setResult XError.InvalidPropertyValue true, s)
    | some itMode =>
      let r := mCamera.SetImageEffect itMode.2 s
      (setResult XError.Success r.1, r.2)
  else (setResult XError.UnknownProperty true, s)

/-- The loops of `GetProperty` over a mode table: the key of the first entry, in the map's
iteration order, whose mode is the camera's; without such an entry `value` stays as it was. -/
def firstNameOf {β : Type} [DecidableEq β] (mode : β) (value : String) :
    List (String × β) → String
  | [] => value
  | supportedMode :: rest =>
    if supportedMode.2 = mode then supportedMode.1 else firstNameOf mode value rest

/-- The tail of `GetProperty`: a numeric value is printed over `value`. -/
def getResult (ret : XError) (valueIsANumber : Bool) (numericValue : Int) (value : String) :
    XError × String :=
  (ret, if valueIsANumber then sprintf_d numericValue else value)

/-- The member `XRaspiCameraConfig::GetProperty`: `value` is the content of the output string
before the call; the result and the content of the output string after the call. -/
def GetProperty {σ : Type} (mCamera : XRaspiCamera σ) (propertyName value : String) (s : σ) :
    XError × String :=
  if propertyName = PROP_HFLIP then
    getResult XError.Success false 0 (if mCamera.GetHorizontalFlip s then "1" else "0")
  else if propertyName = PROP_VFLIP then
    getResult XError.Success false 0 (if mCamera.GetVerticalFlip s then "1" else "0")
  else if propertyName = PROP_VIDEO_STABILISATION then
    getResult XError.Success false 0 (if mCamera.GetVideoStabilisation s then "1" else "0")
  else if propertyName = PROP_SHARPNESS then
    getResult XError.Success true (mCamera.GetSharpness s) value
  else if propertyName = PROP_CONTRAST then
    getResult XError.Success true (mCamera.GetContrast s) value
  else if propertyName = PROP_BRIGHTNESS then
    getResult XError.Success true (mCamera.GetBrightness s) value
  else if propertyName = PROP_SATURATION then
    getResult XError.Success true (mCamera.GetSaturation s) value
  else if propertyName = PROP_AWBMODE then
    getResult XError.Success false 0
      (firstNameOf (mCamera.GetWhiteBalanceMode s) value SupportedAwbModes)
  else if propertyName = PROP_EXPMODE then
    getResult XError.Success false 0
      (firstNameOf (mCamera.GetExposureMode s) value SupportedExposureModes)
  else if propertyName = PROP_EXPMETERINGMODE then
    getResult XError.Success false 0
      (firstNameOf (mCamera.GetExposureMeteringMode s) value SupportedExposureMeteringModes)
  else if propertyName = PROP_EFFECT then
    getResult XError.Success false 0
      (firstNameOf (mCamera.GetImageEffect s) value SupportedImageEffects)
  else getResult XError.UnknownProperty false 0 value

/-- The member `XRaspiCameraConfig::GetAllProperties`: for every supported property, in
declaration order, `GetProperty` is called on a fresh empty string and a success is inserted
into the resulting map. -/
def GetAllProperties {σ : Type} (mCamera : XRaspiCamera σ) (s : σ) : List (String × String) :=
  SupportedProperties.foldl
    (fun properties name =>
      let r := GetProperty mCamera name "" s
      if r.1 = XError.Success then StdMap.insert (name, r.2) properties else properties)
    []

/-! ## Device models used to state the properties -/

/-- One call of a setter of the camera, with the arguments it was given. -/
inductive SetterCall
  | CameraFlip (hflip vflip : Bool)
  | VideoStabilisation (enabled : Bool)
  | Sharpness (numericValue : Int)
  | Contrast (numericValue : Int)
  | Brightness (numericValue : Int)
  | Saturation (numericValue : Int)
  | WhiteBalanceMode (mode : AwbMode)
  | ExposureMode (mode : ExposureMode)
  | ExposureMeteringMode (mode : ExposureMeteringMode)
  | ImageEffect (effect : ImageEffect)
  deriving DecidableEq, Repr

/-- Perform a setter call on a camera: the status the setter reports and the next state. -/
def SetterCall.run {σ : Type} (cam : XRaspiCamera σ) : SetterCall → σ → Bool × σ
  | SetterCall.CameraFlip hflip vflip => cam.SetCameraFlip hflip vflip
  | SetterCall.VideoStabilisation enabled => cam.SetVideoStabilisation enabled
  | SetterCall.Sharpness n => cam.SetSharpness n
  | SetterCall.Contrast n => cam.SetContrast n
  | SetterCall.Brightness n => cam.SetBrightness n
  | SetterCall.Saturation n => cam.SetSaturation n
  | SetterCall.WhiteBalanceMode mode => cam.SetWhiteBalanceMode mode
  | SetterCall.ExposureMode mode => cam.SetExposureMode mode
  | SetterCall.ExposureMeteringMode mode => cam.SetExposureMeteringMode mode
  | SetterCall.ImageEffect effect => cam.SetImageEffect effect

/-- The camera `cam` with a journal next to its state: getters answer as `cam` does, and every
setter does what the setter of `cam` does and appends the call to the journal. -/
def recording {σ : Type} (cam : XRaspiCamera σ) : XRaspiCamera (σ × List SetterCall) where
  GetHorizontalFlip := fun t => cam.GetHorizontalFlip t.1
  GetVerticalFlip := fun t => cam.GetVerticalFlip t.1
  SetCameraFlip := fun hflip vflip t =>
    ((cam.SetCameraFlip hflip vflip t.1).1,
      ((cam.SetCameraFlip hflip vflip t.1).2, t.2 ++ [SetterCall.CameraFlip hflip vflip]))
  GetVideoStabilisation := fun t => cam.GetVideoStabilisation t.1
  SetVideoStabilisation := fun enabled t =>
    ((cam.SetVideoStabilisation enabled t.1).1,
      ((cam.SetVideoStabilisation enabled t.1).2, t.2 ++ [SetterCall.VideoStabilisation enabled]))
  GetSharpness := fun t => cam.GetSharpness t.1
  SetSharpness := fun n t =>
    ((cam.SetSharpness n t.1).1, ((cam.SetSharpness n t.1).2, t.2 ++ [SetterCall.Sharpness n]))
  GetContrast := fun t => cam.GetContrast t.1
  SetContrast := fun n t =>
    ((cam.SetContrast n t.1).1, ((cam.SetContrast n t.1).2, t.2 ++ [SetterCall.Contrast n]))
  GetBrightness := fun t => cam.GetBrightness t.1
  SetBrightness := fun n t =>
    ((cam.SetBrightness n t.1).1, ((cam.SetBrightness n t.1).2, t.2 ++ [SetterCall.Brightness n]))
  GetSaturation := fun t => cam.GetSaturation t.1
  SetSaturation := fun n t =>
    ((cam.SetSaturation n t.1).1, ((cam.SetSaturation n t.1).2, t.2 ++ [SetterCall.Saturation n]))
  GetWhiteBalanceMode := fun t => cam.GetWhiteBalanceMode t.1
  SetWhiteBalanceMode := fun mode t =>
    ((cam.SetWhiteBalanceMode mode t.1).1,
      ((cam.SetWhiteBalanceMode mode t.1).2, t.2 ++ [SetterCall.WhiteBalanceMode mode]))
  GetExposureMode := fun t => cam.GetExposureMode t.1
  SetExposureMode := fun mode t =>
    ((cam.SetExposureMode mode t.1).1,
      ((cam.SetExposureMode mode t.1).2, t.2 ++ [SetterCall.ExposureMode mode]))
  GetExposureMeteringMode := fun t => cam.GetExposureMeteringMode t.1
  SetExposureMeteringMode := fun mode t =>
    ((cam.SetExposureMeteringMode mode t.1).1,
      ((cam.SetExposureMeteringMode mode t.1).2, t.2 ++ [SetterCall.ExposureMeteringMode mode]))
  GetImageEffect := fun t => cam.GetImageEffect t.1
  SetImageEffect := fun effect t =>
    ((cam.SetImageEffect effect t.1).1,
      ((cam.SetImageEffect effect t.1).2, t.2 ++ [SetterCall.ImageEffect effect]))

/-- The setter calls `SetProperty` makes, in order, when run on `cam` in state `s`. -/
def setterCalls {σ : Type} (cam : XRaspiCamera σ) (propertyName value : String) (s : σ) :
    List SetterCall :=
  (SetProperty (recording cam) propertyName value (s, [])).2.2

/-- The settings a camera holds: one stored value per property. -/
structure Settings where
  hflip : Bool
  vflip : Bool
  videoStabilisation : Bool
  sharpness : Int
  contrast : Int
  brightness : Int
  saturation : Int
  whiteBalanceMode : AwbMode
  exposureMode : ExposureMode
  exposureMeteringMode : ExposureMeteringMode
  imageEffect : ImageEffect
  deriving DecidableEq, Repr

/-- A camera whose setters store what they are given and report success, and whose getters
return what is stored. -/
def storingCamera : XRaspiCamera Settings where
  GetHorizontalFlip := fun t => t.hflip
  GetVerticalFlip := fun t => t.vflip
  SetCameraFlip := fun hflip vflip t => (true, { t with hflip := hflip, vflip := vflip })
  GetVideoStabilisation := fun t => t.videoStabilisation
  SetVideoStabilisation := fun enabled t => (true, { t with videoStabilisation := enabled })
  GetSharpness := fun t => t.sharpness
  SetSharpness := fun n t => (true, { t with sharpness := n })
  GetContrast := fun t => t.contrast
  SetContrast := fun n t => (true, { t with contrast := n })
  GetBrightness := fun t => t.brightness
  SetBrightness := fun n t => (true, { t with brightness := n })
  GetSaturation := fun t => t.saturation
  SetSaturation := fun n t => (true, { t with saturation := n })
  GetWhiteBalanceMode := fun t => t.whiteBalanceMode
  SetWhiteBalanceMode := fun mode t => (true, { t with whiteBalanceMode := mode })
  GetExposureMode := fun t => t.exposureMode
  SetExposureMode := fun mode t => (true, { t with exposureMode := mode })
  GetExposureMeteringMode := fun t => t.exposureMeteringMode
  SetExposureMeteringMode := fun mode t => (true, { t with exposureMeteringMode := mode })
  GetImageEffect := fun t => t.imageEffect
  SetImageEffect := fun effect t => (true, { t with imageEffect := effect })

/-- A camera that stores like `storingCamera` but whose setters all report failure when
`accepts` is false. -/
def statusCamera (accepts : Bool) : XRaspiCamera Settings where
  GetHorizontalFlip := fun t => t.hflip
  GetVerticalFlip := fun t => t.vflip
  SetCameraFlip := fun hflip vflip t =>
    (accepts, if accepts then { t with hflip := hflip, vflip := vflip } else t)
  GetVideoStabilisation := fun t => t.videoStabilisation
  SetVideoStabilisation := fun enabled t =>
    (accepts, if accepts then { t with videoStabilisation := enabled } else t)
  GetSharpness := fun t => t.sharpness
  SetSharpness := fun n t => (accepts, if accepts then { t with sharpness := n } else t)
  GetContrast := fun t => t.contrast
  SetContrast := fun n t => (accepts, if accepts then { t with contrast := n } else t)
  GetBrightness := fun t => t.brightness
  SetBrightness := fun n t => (accepts, if accepts then { t with brightness := n } else t)
  GetSaturation := fun t => t.saturation
  SetSaturation := fun n t => (accepts, if accepts then { t with saturation := n } else t)
  GetWhiteBalanceMode := fun t => t.whiteBalanceMode
  SetWhiteBalanceMode := fun mode t =>
    (accepts, if accepts then { t with whiteBalanceMode := mode } else t)
  GetExposureMode := fun t => t.exposureMode
  SetExposureMode := fun mode t =>
    (accepts, if accepts then { t with exposureMode := mode } else t)
  GetExposureMeteringMode := fun t => t.exposureMeteringMode
  SetExposureMeteringMode := fun mode t =>
    (accepts, if accepts then { t with exposureMeteringMode := mode } else t)
  GetImageEffect := fun t => t.imageEffect
  SetImageEffect := fun effect t =>
    (accepts, if accepts then { t with imageEffect := effect } else t)

/-- The settings of a camera that was never touched. -/
def initialSettings : Settings :=
  { hflip := false, vflip := false, videoStabilisation := false,
    sharpness := 0, contrast := 0, brightness := 50, saturation := 0,
    whiteBalanceMode := AwbMode.Auto, exposureMode := ExposureMode.Auto,
    exposureMeteringMode := ExposureMeteringMode.Average, imageEffect := ImageEffect.None }

/-! ## The vocabulary of the specification -/

/-- Spec §3, PropertyName: the eleven recognized names. -/
def recognizedNames : List String :=
  ["hflip", "vflip", "videostabilisation", "sharpness", "contrast", "brightness", "saturation",
    "awb", "expmode", "expmeteringmode", "effect"]

/-- Spec §4.1, boolean properties: a value is truthy iff it equals "1" or "true". -/
def truthy (value : String) : Bool :=
  value == "1" || value == "true"

/-- Spec §6, the value grammar of `awb`. -/
def awbNames : List String :=
  ["Off", "Auto", "Sunlight", "Cloudy", "Shade", "Tungsten", "Fluorescent", "Incandescent",
    "Flash", "Horizon"]

/-- Spec §6, the value grammar of `expmode`. -/
def expmodeNames : List String :=
  ["Off", "Auto", "Night", "NightPreview", "Backlight", "Spotlight", "Sports", "Snow", "Beach",
    "VeryLong", "FixedFps", "AntiShake", "FireWorks"]

/-- Spec §6, the value grammar of `expmeteringmode`. -/
def expmeteringmodeNames : List String :=
  ["Average", "Spot", "Backlit", "Matrix"]

/-- Spec §6, the value grammar of `effect`. -/
def effectNames : List String :=
  ["None", "Negative", "Solarize", "Sketch", "Denoise", "Emboss", "OilPaint", "Hatch", "Gpen",
    "Pastel", "WaterColor", "Film", "Blur", "Saturation", "ColorSwap", "WashedOut", "Posterise",
    "ColorPoint", "ColorBalance", "Cartoon"]

/-- Spec §6, "base-10 signed integer text": an optional sign (`-` or `+`) and then decimal
digits only, at least one. -/
def isIntegerText (value : String) : Bool :=
  match value.data with
  | [] => false
  | c :: rest =>
    let body := if c.toNat = 45 ∨ c.toNat = 43 then rest else c :: rest
    !body.isEmpty && body.all isdigit

/-- The integer a base-10 signed integer text denotes: its digits read in base ten (least
significant digit last), negated after a minus sign. -/
def integerTextValue (value : String) : Int :=
  match value.data with
  | [] => 0
  | c :: rest =>
    if c.toNat = 45 then
      -((Nat.ofDigits 10 (rest.reverse.map fun d => d.toNat - 48) : Nat) : Int)
    else if c.toNat = 43 then
      ((Nat.ofDigits 10 (rest.reverse.map fun d => d.toNat - 48) : Nat) : Int)
    else ((Nat.ofDigits 10 ((c :: rest).reverse.map fun d => d.toNat - 48) : Nat) : Int)

/-- A value starts with an integer: after leading white space comes an optional sign (`-` or
`+`) and then at least one decimal digit. -/
def startsWithInteger (value : String) : Bool :=
  match (c_str value).dropWhile isspace with
  | [] => false
  | [c] => isdigit c
  | c :: d :: _ => if c.toNat = 45 ∨ c.toNat = 43 then isdigit d else isdigit c

/-- The integer properties of spec §6, each with the setter call it stands for. -/
def integerProperties : List (String × (Int → SetterCall)) :=
  [("sharpness", SetterCall.Sharpness), ("contrast", SetterCall.Contrast),
    ("brightness", SetterCall.Brightness), ("saturation", SetterCall.Saturation)]


/-- The decision about an integer property: the setter call `f` on the scanned number when
exactly one number was scanned, the validation error otherwise. -/
def integerCall (f : Int → SetterCall) (scanned : Scanned) : Except XError SetterCall :=
  if scanned.scannedCount = 1 then .ok (f scanned.numericValue)
  else .error XError.InvalidPropertyValue

/-- The decision about a mode property: the setter call `f` on the mode of the entry found in
the table, the validation error when nothing was found. -/
def modeCall {β : Type} (f : β → SetterCall) : Option (String × β) → Except XError SetterCall
  | none => .error XError.InvalidPropertyValue
  | some itMode => .ok (f itMode.2)

/-- The decision `SetProperty` takes before it touches the device: the validation error it
returns without calling a setter, or the one setter call it makes. `hflip` and `vflip` are the
flips the camera reports at that moment. -/
def plannedCall (propertyName value : String) (hflip vflip : Bool) : Except XError SetterCall :=
  if propertyName = "hflip" then .ok (SetterCall.CameraFlip (truthy value) vflip)
  else if propertyName = "vflip" then .ok (SetterCall.CameraFlip hflip (truthy value))
  else if propertyName = "videostabilisation" then
    .ok (SetterCall.VideoStabilisation (truthy value))
  else if propertyName = "sharpness" then
    integerCall SetterCall.Sharpness (sscanf_d (c_str value))
  else if propertyName = "contrast" then
    integerCall SetterCall.Contrast (sscanf_d (c_str value))
  else if propertyName = "brightness" then
    integerCall SetterCall.Brightness (sscanf_d (c_str value))
  else if propertyName = "saturation" then
    integerCall SetterCall.Saturation (sscanf_d (c_str value))
  else if propertyName = "awb" then
    modeCall SetterCall.WhiteBalanceMode (StdMap.find value SupportedAwbModes)
  else if propertyName = "expmode" then
    modeCall SetterCall.ExposureMode (StdMap.find value SupportedExposureModes)
  else if propertyName = "expmeteringmode" then
    modeCall SetterCall.ExposureMeteringMode (StdMap.find value SupportedExposureMeteringModes)
  else if propertyName = "effect" then
    modeCall SetterCall.ImageEffect (StdMap.find value SupportedImageEffects)
  else .error XError.UnknownProperty

/-- What `SetProperty` returns and leaves behind for a planned call: a validation error leaves
the device alone; a setter call is performed and its status decides between `Success` and
`Failed`. -/
def outcome {σ : Type} (cam : XRaspiCamera σ) (s : σ) : Except XError SetterCall → XError × σ
  | .error e => (e, s)
  | .ok call => (setResult XError.Success (call.run cam s).1, (call.run cam s).2)

/-- The device model of the round-trip property: every setter reports success and stores what
it is given, and the matching getter returns what is stored. -/
structure StoresWhatIsSet {σ : Type} (cam : XRaspiCamera σ) : Prop where
  cameraFlip : ∀ hflip vflip t, (cam.SetCameraFlip hflip vflip t).1 = true ∧
    cam.GetHorizontalFlip (cam.SetCameraFlip hflip vflip t).2 = hflip ∧
    cam.GetVerticalFlip (cam.SetCameraFlip hflip vflip t).2 = vflip
  videoStabilisation : ∀ enabled t, (cam.SetVideoStabilisation enabled t).1 = true ∧
    cam.GetVideoStabilisation (cam.SetVideoStabilisation enabled t).2 = enabled
  sharpness : ∀ n t, (cam.SetSharpness n t).1 = true ∧
    cam.GetSharpness (cam.SetSharpness n t).2 = n
  contrast : ∀ n t, (cam.SetContrast n t).1 = true ∧
    cam.GetContrast (cam.SetContrast n t).2 = n
  brightness : ∀ n t, (cam.SetBrightness n t).1 = true ∧
    cam.GetBrightness (cam.SetBrightness n t).2 = n
  saturation : ∀ n t, (cam.SetSaturation n t).1 = true ∧
    cam.GetSaturation (cam.SetSaturation n t).2 = n
  whiteBalanceMode : ∀ mode t, (cam.SetWhiteBalanceMode mode t).1 = true ∧
    cam.GetWhiteBalanceMode (cam.SetWhiteBalanceMode mode t).2 = mode
  exposureMode : ∀ mode t, (cam.SetExposureMode mode t).1 = true ∧
    cam.GetExposureMode (cam.SetExposureMode mode t).2 = mode
  exposureMeteringMode : ∀ mode t, (cam.SetExposureMeteringMode mode t).1 = true ∧
    cam.GetExposureMeteringMode (cam.SetExposureMeteringMode mode t).2 = mode
  imageEffect : ∀ effect t, (cam.SetImageEffect effect t).1 = true ∧
    cam.GetImageEffect (cam.SetImageEffect effect t).2 = effect

/-- Spec §4.1, "integers render as decimal text": a minus sign exactly when the number is
negative, never a plus sign, then the decimal digits of the magnitude, most significant first
and without leading zeros (the single digit 0 for zero). `Nat.digits` lists the digits least
significant first and without trailing zeros. -/
def decimalText (n : Int) : List Char :=
  (if n < 0 then ['-'] else []) ++
    (if n = 0 then ['0'] else (Nat.digits 10 n.natAbs).reverse.map Nat.digitChar)

/-- The integer a value starts with, in the words of the claim about integer properties: skip
leading white space; then an optional sign (`-` or `+`) and the longest run of decimal digits
after it; without a digit there is no integer; otherwise the integer is the number the digits
denote in base ten, negated after a minus sign. What follows the digits plays no part. -/
def leadingInteger (value : String) : Option Int :=
  match value.data.dropWhile isspace with
  | [] => none
  | c :: rest =>
    let body := if c.toNat = 45 ∨ c.toNat = 43 then rest else c :: rest
    let digits := body.takeWhile isdigit
    if digits = [] then none
    else if c.toNat = 45 then
      some (-((Nat.ofDigits 10 (digits.reverse.map fun d => d.toNat - 48) : Nat) : Int))
    else some ((Nat.ofDigits 10 (digits.reverse.map fun d => d.toNat - 48) : Nat) : Int)

/-- The property names a setter call serves: the joint flip setter serves both flip properties,
every other setter the one property it is named after. -/
def SetterCall.serves : SetterCall → String → Bool
  | SetterCall.CameraFlip _ _, name => name == "hflip" || name == "vflip"
  | SetterCall.VideoStabilisation _, name => name == "videostabilisation"
  | SetterCall.Sharpness _, name => name == "sharpness"
  | SetterCall.Contrast _, name => name == "contrast"
  | SetterCall.Brightness _, name => name == "brightness"
  | SetterCall.Saturation _, name => name == "saturation"
  | SetterCall.WhiteBalanceMode _, name => name == "awb"
  | SetterCall.ExposureMode _, name => name == "expmode"
  | SetterCall.ExposureMeteringMode _, name => name == "expmeteringmode"
  | SetterCall.ImageEffect _, name => name == "effect"

/-- Spec §4.1 and §6, the validation of a value for the type of a property: a boolean property
takes any text; an integer property takes text that starts, after white space, with an
optionally signed decimal integer (`leadingInteger`); a mode property takes exactly the names
listed for it; there is no valid value for a name that is not recognized. -/
def passesValidation (name value : String) : Bool :=
  if name = "hflip" ∨ name = "vflip" ∨ name = "videostabilisation" then true
  else if name = "sharpness" ∨ name = "contrast" ∨ name = "brightness" ∨ name = "saturation" then
    (leadingInteger value).isSome
  else if name = "awb" then decide (value ∈ awbNames)
  else if name = "expmode" then decide (value ∈ expmodeNames)
  else if name = "expmeteringmode" then decide (value ∈ expmeteringmodeNames)
  else if name = "effect" then decide (value ∈ effectNames)
  else false

/-! # Properties -/

variable {σ : Type}

theorem setResult_success (b : Bool) :
    setResult XError.Success b = if b then XError.Success else XError.Failed := by
  cases b <;> rfl

/-! ## `SetProperty`, one property at a time -/

theorem SetProperty_eq_outcome (cam : XRaspiCamera σ) (name value : String) (s : σ) :
    SetProperty cam name value s =
      outcome cam s (plannedCall name value (cam.GetHorizontalFlip s) (cam.GetVerticalFlip s)) := by
  by_cases h1 : name = "hflip"
  · subst h1; rfl
  by_cases h2 : name = "vflip"
  · subst h2; rfl
  by_cases h3 : name = "videostabilisation"
  · subst h3; rfl
  have int_case : ∀ (f : Int → SetterCall) (scanned : Scanned),
      (if scanned.scannedCount = 1 then
          (setResult XError.Success ((f scanned.numericValue).run cam s).1,
            ((f scanned.numericValue).run cam s).2)
        else (setResult XError.InvalidPropertyValue true, s)) =
      outcome cam s (integerCall f scanned) := by
    intro f scanned
    unfold integerCall
    split_ifs <;> rfl
  by_cases h4 : name = "sharpness"
  · subst h4; exact int_case SetterCall.Sharpness _
  by_cases h5 : name = "contrast"
  · subst h5; exact int_case SetterCall.Contrast _
  by_cases h6 : name = "brightness"
  · subst h6; exact int_case SetterCall.Brightness _
  by_cases h7 : name = "saturation"
  · subst h7; exact int_case SetterCall.Saturation _
  by_cases h8 : name = "awb"
  · subst h8
    have hs : SetProperty cam "awb" value s =
        match StdMap.find value SupportedAwbModes with
        | none => (XError.InvalidPropertyValue, s)
        | some itMode => (setResult XError.Success (cam.SetWhiteBalanceMode itMode.2 s).1,
            (cam.SetWhiteBalanceMode itMode.2 s).2) := rfl
    have hp : plannedCall "awb" value (cam.GetHorizontalFlip s) (cam.GetVerticalFlip s) =
        modeCall SetterCall.WhiteBalanceMode (StdMap.find value SupportedAwbModes) := rfl
    rw [hs, hp]
    cases StdMap.find value SupportedAwbModes <;> rfl
  by_cases h9 : name = "expmode"
  · subst h9
    have hs : SetProperty cam "expmode" value s =
        match StdMap.find value SupportedExposureModes with
        | none => (XError.InvalidPropertyValue, s)
        | some itMode => (setResult XError.Success (cam.SetExposureMode itMode.2 s).1,
            (cam.SetExposureMode itMode.2 s).2) := rfl
    have hp : plannedCall "expmode" value (cam.GetHorizontalFlip s) (cam.GetVerticalFlip s) =
        modeCall SetterCall.ExposureMode (StdMap.find value SupportedExposureModes) := rfl
    rw [hs, hp]
    cases StdMap.find value SupportedExposureModes <;> rfl
  by_cases h10 : name = "expmeteringmode"
  · subst h10
    have hs : SetProperty cam "expmeteringmode" value s =
        match StdMap.find value SupportedExposureMeteringModes with
        | none => (XError.InvalidPropertyValue, s)
        | some itMode => (setResult XError.Success (cam.SetExposureMeteringMode itMode.2 s).1,
            (cam.SetExposureMeteringMode itMode.2 s).2) := rfl
    have hp : plannedCall "expmeteringmode" value (cam.GetHorizontalFlip s) (cam.GetVerticalFlip s) =
        modeCall SetterCall.ExposureMeteringMode (StdMap.find value SupportedExposureMeteringModes) := rfl
    rw [hs, hp]
    cases StdMap.find value SupportedExposureMeteringModes <;> rfl
  by_cases h11 : name = "effect"
  · subst h11
    have hs : SetProperty cam "effect" value s =
        match StdMap.find value SupportedImageEffects with
        | none => (XError.InvalidPropertyValue, s)
        | some itMode => (setResult XError.Success (cam.SetImageEffect itMode.2 s).1,
            (cam.SetImageEffect itMode.2 s).2) := rfl
    have hp : plannedCall "effect" value (cam.GetHorizontalFlip s) (cam.GetVerticalFlip s) =
        modeCall SetterCall.ImageEffect (StdMap.find value SupportedImageEffects) := rfl
    rw [hs, hp]
    cases StdMap.find value SupportedImageEffects <;> rfl
  simp only [SetProperty, plannedCall, PROP_HFLIP, PROP_VFLIP, PROP_VIDEO_STABILISATION,
    PROP_SHARPNESS, PROP_CONTRAST, PROP_BRIGHTNESS, PROP_SATURATION, PROP_AWBMODE, PROP_EXPMODE,
    PROP_EXPMETERINGMODE, PROP_EFFECT, if_neg h1, if_neg h2, if_neg h3, if_neg h4, if_neg h5,
    if_neg h6, if_neg h7, if_neg h8, if_neg h9, if_neg h10, if_neg h11]
  rfl

theorem not_recognized_iff (name : String) :
    name ∉ recognizedNames ↔
      name ≠ "hflip" ∧ name ≠ "vflip" ∧ name ≠ "videostabilisation" ∧ name ≠ "sharpness" ∧
      name ≠ "contrast" ∧ name ≠ "brightness" ∧ name ≠ "saturation" ∧ name ≠ "awb" ∧
      name ≠ "expmode" ∧ name ≠ "expmeteringmode" ∧ name ≠ "effect" := by
  simp only [recognizedNames, List.mem_cons, List.mem_singleton, List.not_mem_nil, or_false,
    not_or, ne_eq]

theorem recognized_iff (name : String) :
    name ∈ recognizedNames ↔
      name = "hflip" ∨ name = "vflip" ∨ name = "videostabilisation" ∨ name = "sharpness" ∨
      name = "contrast" ∨ name = "brightness" ∨ name = "saturation" ∨ name = "awb" ∨
      name = "expmode" ∨ name = "expmeteringmode" ∨ name = "effect" := by
  simp only [recognizedNames, List.mem_cons, List.mem_singleton, List.not_mem_nil, or_false]

theorem plannedCall_of_not_recognized {name : String} (h : name ∉ recognizedNames)
    (value : String) (hflip vflip : Bool) :
    plannedCall name value hflip vflip = .error XError.UnknownProperty := by
  obtain ⟨h1, h2, h3, h4, h5, h6, h7, h8, h9, h10, h11⟩ := (not_recognized_iff name).1 h
  simp only [plannedCall, if_neg h1, if_neg h2, if_neg h3, if_neg h4, if_neg h5,
    if_neg h6, if_neg h7, if_neg h8, if_neg h9, if_neg h10, if_neg h11]

theorem integerCall_cases (f : Int → SetterCall) (scanned : Scanned) :
    integerCall f scanned = .error XError.InvalidPropertyValue ∨
      ∃ call, integerCall f scanned = .ok call := by
  unfold integerCall
  split_ifs
  · exact Or.inr ⟨_, rfl⟩
  · exact Or.inl rfl

theorem modeCall_cases {β : Type} (f : β → SetterCall) (r : Option (String × β)) :
    modeCall f r = .error XError.InvalidPropertyValue ∨ ∃ call, modeCall f r = .ok call := by
  cases r
  · exact Or.inl rfl
  · exact Or.inr ⟨_, rfl⟩

theorem plannedCall_of_recognized {name : String} (h : name ∈ recognizedNames)
    (value : String) (hflip vflip : Bool) :
    plannedCall name value hflip vflip = .error XError.InvalidPropertyValue ∨
      ∃ call, plannedCall name value hflip vflip = .ok call := by
  rcases (recognized_iff name).1 h with
    rfl | rfl | rfl | rfl | rfl | rfl | rfl | rfl | rfl | rfl | rfl
  · exact Or.inr ⟨_, rfl⟩
  · exact Or.inr ⟨_, rfl⟩
  · exact Or.inr ⟨_, rfl⟩
  · exact integerCall_cases SetterCall.Sharpness _
  · exact integerCall_cases SetterCall.Contrast _
  · exact integerCall_cases SetterCall.Brightness _
  · exact integerCall_cases SetterCall.Saturation _
  · exact modeCall_cases SetterCall.WhiteBalanceMode (StdMap.find value SupportedAwbModes)
  · exact modeCall_cases SetterCall.ExposureMode (StdMap.find value SupportedExposureModes)
  · exact modeCall_cases SetterCall.ExposureMeteringMode
      (StdMap.find value SupportedExposureMeteringModes)
  · exact modeCall_cases SetterCall.ImageEffect (StdMap.find value SupportedImageEffects)

theorem outcome_ok_fst (cam : XRaspiCamera σ) (s : σ) (call : SetterCall) :
    (outcome cam s (.ok call)).1 = XError.Success ∨ (outcome cam s (.ok call)).1 = XError.Failed := by
  simp only [outcome, setResult_success]
  cases (call.run cam s).1 <;> simp

/-! ## `GetProperty`, one property at a time -/

theorem GetProperty_of_not_recognized (cam : XRaspiCamera σ) {name : String}
    (h : name ∉ recognizedNames) (value : String) (s : σ) :
    GetProperty cam name value s = (XError.UnknownProperty, value) := by
  obtain ⟨h1, h2, h3, h4, h5, h6, h7, h8, h9, h10, h11⟩ := (not_recognized_iff name).1 h
  simp only [GetProperty, PROP_HFLIP, PROP_VFLIP, PROP_VIDEO_STABILISATION,
    PROP_SHARPNESS, PROP_CONTRAST, PROP_BRIGHTNESS, PROP_SATURATION, PROP_AWBMODE, PROP_EXPMODE,
    PROP_EXPMETERINGMODE, PROP_EFFECT, if_neg h1, if_neg h2, if_neg h3, if_neg h4, if_neg h5,
    if_neg h6, if_neg h7, if_neg h8, if_neg h9, if_neg h10, if_neg h11]
  rfl

theorem GetProperty_of_recognized (cam : XRaspiCamera σ) {name : String}
    (h : name ∈ recognizedNames) (value : String) (s : σ) :
    (GetProperty cam name value s).1 = XError.Success := by
  rcases (recognized_iff name).1 h with
    rfl | rfl | rfl | rfl | rfl | rfl | rfl | rfl | rfl | rfl | rfl <;> rfl

/-- Claim C1. `SetProperty` returns `UnknownProperty` exactly for the names that are not among the
eleven recognized ones (compared case-sensitively), whatever the value, the camera and its
state; and `GetProperty` returns `UnknownProperty` exactly for the same names. -/
theorem unknown_property_iff_not_recognized (cam : XRaspiCamera σ) (name value out : String)
    (s : σ) :
    ((SetProperty cam name value s).1 = XError.UnknownProperty ↔
        name ∉ ["hflip", "vflip", "videostabilisation", "sharpness", "contrast", "brightness",
          "saturation", "awb", "expmode", "expmeteringmode", "effect"]) ∧
      ((GetProperty cam name out s).1 = XError.UnknownProperty ↔
        name ∉ ["hflip", "vflip", "videostabilisation", "sharpness", "contrast", "brightness",
          "saturation", "awb", "expmode", "expmeteringmode", "effect"]) := by
  change (_ ↔ name ∉ recognizedNames) ∧ (_ ↔ name ∉ recognizedNames)
  by_cases h : name ∈ recognizedNames
  · refine ⟨iff_of_false ?_ (not_not.2 h), iff_of_false ?_ (not_not.2 h)⟩
    · rw [SetProperty_eq_outcome]
      rcases plannedCall_of_recognized h value (cam.GetHorizontalFlip s)
        (cam.GetVerticalFlip s) with hp | ⟨call, hp⟩
      · rw [hp]; simp [outcome]
      · rw [hp]; rcases outcome_ok_fst cam s call with ho | ho <;> rw [ho] <;> simp
    · rw [GetProperty_of_recognized cam h]; simp
  · refine ⟨iff_of_true ?_ h, iff_of_true ?_ h⟩
    · rw [SetProperty_eq_outcome, plannedCall_of_not_recognized h]; rfl
    · rw [GetProperty_of_not_recognized cam h]

/-! ## The decimal conversion -/

theorem digitsValue_nil (acc : Nat) : digitsValue acc [] = acc := rfl
theorem digitsValue_cons (acc : Nat) (c : Char) (rest : List Char) :
    digitsValue acc (c :: rest) = digitsValue (10 * acc + (c.toNat - 48)) rest := rfl

theorem digitsValue_eq (acc : Nat) (l : List Char) :
    digitsValue acc l =
      acc * 10 ^ l.length + Nat.ofDigits 10 (l.reverse.map fun d => d.toNat - 48) := by
  induction l generalizing acc with
  | nil =>
    rw [digitsValue_nil]
    simp only [List.length_nil, pow_zero, mul_one, List.reverse_nil, List.map_nil,
      Nat.ofDigits_nil, add_zero]
  | cons c rest ih =>
    rw [digitsValue_cons, ih]
    simp only [List.reverse_cons, List.map_append, List.map_cons, List.map_nil,
      Nat.ofDigits_append, Nat.ofDigits_singleton, List.length_map, List.length_reverse,
      List.length_cons]
    ring

theorem storeInt_of_fits {n : Int} (hlo : INT_MIN ≤ n) (hhi : n ≤ INT_MAX) : storeInt n = n := by
  simp only [INT_MIN, INT_MAX] at hlo hhi
  have h1 : ¬ n < LONG_MIN := by simp only [LONG_MIN]; omega
  have h2 : ¬ LONG_MAX < n := by simp only [LONG_MAX]; omega
  simp only [storeInt, if_neg h1, if_neg h2]
  omega

theorem isEmpty_takeWhile_cons {α : Type} (p : α → Bool) (a : α) (l : List α) :
    ((a :: l).takeWhile p).isEmpty = !p a := by
  cases h : p a <;> simp [List.takeWhile_cons, h]

theorem isdigit_of_sign {c : Char} (h : c.toNat = 45 ∨ c.toNat = 43) : isdigit c = false := by
  rcases h with h | h <;> simp [isdigit, h]

theorem scannedCount_eq_one_iff (value : String) :
    (sscanf_d (c_str value)).scannedCount = 1 ↔ startsWithInteger value = true := by
  unfold sscanf_d startsWithInteger
  rcases hl : (c_str value).dropWhile isspace with _ | ⟨c, _ | ⟨d, rest⟩⟩
  · simp
  · by_cases hs : c.toNat = 45 ∨ c.toNat = 43
    · have hs2 : (c.toNat == 45 || c.toNat == 43) = true := by simpa using hs
      simp [hs2, isdigit_of_sign hs]
    · have hs2 : (c.toNat == 45 || c.toNat == 43) = false := by simpa using hs
      cases hd : isdigit c <;> simp [hs2, List.takeWhile_cons, hd]
  · by_cases hs : c.toNat = 45 ∨ c.toNat = 43
    · have hs2 : (c.toNat == 45 || c.toNat == 43) = true := by simpa using hs
      cases hd : isdigit d <;> simp [hs, hs2, List.takeWhile_cons, hd]
    · have hs2 : (c.toNat == 45 || c.toNat == 43) = false := by simpa using hs
      cases hd : isdigit c <;> simp [hs, hs2, List.takeWhile_cons, hd]
theorem isdigit_not_nul {c : Char} (h : isdigit c = true) : (c.toNat != 0) = true := by
  simp only [isdigit, Bool.and_eq_true, decide_eq_true_eq] at h
  simp only [bne_iff_ne, ne_eq]
  omega

theorem isdigit_not_space {c : Char} (h : isdigit c = true) : isspace c = false := by
  simp only [isdigit, Bool.and_eq_true, decide_eq_true_eq] at h
  simp only [isspace, Bool.or_eq_false_iff, beq_eq_false_iff_ne, ne_eq, Bool.and_eq_false_imp,
    decide_eq_true_eq, decide_eq_false_iff_not]
  omega

theorem sign_not_space {c : Char} (h : c.toNat = 45 ∨ c.toNat = 43) : isspace c = false := by
  rcases h with h | h <;> simp [isspace, h]

theorem sscanf_d_of_digits (c : Char) (rest : List Char)
    (hd : ∀ x ∈ c :: rest, isdigit x = true) :
    sscanf_d (c :: rest) =
      ⟨1, storeInt ((Nat.ofDigits 10 ((c :: rest).reverse.map fun d => d.toNat - 48) : Nat) : Int)⟩ := by
  have hc : isdigit c = true := hd c (List.mem_cons_self _ _)
  have hns : ¬ (c.toNat = 45 ∨ c.toNat = 43) := by
    intro hs; rw [isdigit_of_sign hs] at hc; exact Bool.false_ne_true hc
  have hs2 : (c.toNat == 45 || c.toNat == 43) = false := by simpa using hns
  have h45 : (c.toNat == 45) = false := by
    simp only [beq_eq_false_iff_ne, ne_eq]; exact fun h => hns (Or.inl h)
  have hdrop : (c :: rest).dropWhile isspace = c :: rest :=
    List.dropWhile_cons_of_neg (by simp [isdigit_not_space hc])
  have htake : (c :: rest).takeWhile isdigit = c :: rest := List.takeWhile_eq_self_iff.2 hd
  unfold sscanf_d
  rw [hdrop]
  have h43 : (c.toNat == 43) = false := by
    simp only [beq_eq_false_iff_ne, ne_eq]; exact fun h => hns (Or.inr h)
  simp only [h45, h43, Bool.or_self, Bool.false_eq_true, if_false, htake, List.isEmpty_cons,
    digitsValue_eq, zero_mul, zero_add]

theorem sscanf_d_of_sign_digits (c : Char) (rest : List Char)
    (hs : c.toNat = 45 ∨ c.toNat = 43) (hne : rest ≠ [])
    (hd : ∀ x ∈ rest, isdigit x = true) :
    sscanf_d (c :: rest) =
      ⟨1, storeInt (if c.toNat = 45
        then -((Nat.ofDigits 10 (rest.reverse.map fun d => d.toNat - 48) : Nat) : Int)
        else ((Nat.ofDigits 10 (rest.reverse.map fun d => d.toNat - 48) : Nat) : Int))⟩ := by
  have hs2 : (c.toNat == 45 || c.toNat == 43) = true := by simpa using hs
  have hdrop : (c :: rest).dropWhile isspace = c :: rest :=
    List.dropWhile_cons_of_neg (by simp [sign_not_space hs])
  have htake : rest.takeWhile isdigit = rest := List.takeWhile_eq_self_iff.2 hd
  have hemp : rest.isEmpty = false := by
    cases rest with
    | nil => exact absurd rfl hne
    | cons a l => rfl
  unfold sscanf_d
  rw [hdrop]
  simp only [hs2, htake, hemp, digitsValue_eq, zero_mul, zero_add, if_true]
  by_cases h45 : c.toNat = 45 <;> simp [h45]

theorem c_str_of_integerText {value : String} (h : isIntegerText value = true) :
    c_str value = value.data := by
  unfold c_str
  rw [List.takeWhile_eq_self_iff]
  unfold isIntegerText at h
  rcases hv : value.data with _ | ⟨c, rest⟩
  · intro x hx; cases hx
  · rw [hv] at h
    by_cases hs : c.toNat = 45 ∨ c.toNat = 43
    · simp only [hs, if_true, Bool.and_eq_true, List.all_eq_true] at h
      intro x hx
      rcases List.mem_cons.1 hx with rfl | hx
      · rcases hs with hs | hs <;> simp [hs]
      · exact isdigit_not_nul (h.2 x hx)
    · simp only [hs, if_false, Bool.and_eq_true, List.all_eq_true] at h
      intro x hx
      exact isdigit_not_nul (h.2 x hx)

theorem sscanf_d_of_integerText {value : String} (h : isIntegerText value = true) :
    sscanf_d (c_str value) = ⟨1, storeInt (integerTextValue value)⟩ := by
  rw [c_str_of_integerText h]
  unfold isIntegerText at h
  unfold integerTextValue
  rcases hv : value.data with _ | ⟨c, rest⟩
  · rw [hv] at h; cases h
  · rw [hv] at h
    by_cases hs : c.toNat = 45 ∨ c.toNat = 43
    · simp only [hs, if_true, Bool.and_eq_true, List.all_eq_true, Bool.not_eq_true',
        List.isEmpty_eq_false] at h
      rw [sscanf_d_of_sign_digits c rest hs (by simpa using h.1) h.2]
      rcases hs with hs | hs <;> simp [hs]
    · simp only [hs, if_false, Bool.and_eq_true, List.all_eq_true] at h
      rw [sscanf_d_of_digits c rest h.2]
      have h1 : ¬ c.toNat = 45 := fun h => hs (Or.inl h)
      have h2 : ¬ c.toNat = 43 := fun h => hs (Or.inr h)
      simp only [h1, h2, if_false]
theorem mem_integerProperties {p : String × (Int → SetterCall)} (hp : p ∈ integerProperties) :
    p = ("sharpness", SetterCall.Sharpness) ∨ p = ("contrast", SetterCall.Contrast) ∨
      p = ("brightness", SetterCall.Brightness) ∨ p = ("saturation", SetterCall.Saturation) := by
  simpa only [integerProperties, List.mem_cons, List.mem_singleton, List.not_mem_nil,
    or_false] using hp

theorem plannedCall_integer {p : String × (Int → SetterCall)} (hp : p ∈ integerProperties)
    (value : String) (hflip vflip : Bool) :
    plannedCall p.1 value hflip vflip = integerCall p.2 (sscanf_d (c_str value)) := by
  rcases mem_integerProperties hp with rfl | rfl | rfl | rfl <;> rfl

/-- Claim C2, as stated, fails: "42abc" is not base-10 signed integer text, yet setting
`sharpness` to it on a camera that accepts every value returns `Success` (and sets 42), not
`InvalidPropertyValue`. -/
theorem integer_text_with_trailing_characters_is_accepted :
    isIntegerText "42abc" = false ∧
      SetProperty storingCamera "sharpness" "42abc" initialSettings =
        (XError.Success, { initialSettings with sharpness := 42 }) ∧
      (SetProperty storingCamera "sharpness" "42abc" initialSettings).1 ≠
        XError.InvalidPropertyValue := by
  refine ⟨by decide, by decide, by decide⟩

/-- Claim C2, amended. For each integer property (sharpness, contrast, brightness, saturation):
a value that does not start, after leading white space, with an optional sign and a decimal
digit (such as "abc" or "") makes `SetProperty` return `InvalidPropertyValue` and leaves the
device untouched; and a value that is base-10 signed integer text within the `int` range, on a
device whose setter accepts the denoted integer, makes `SetProperty` return `Success` after that
setter call. -/
theorem integer_property_validation (cam : XRaspiCamera σ) (p : String × (Int → SetterCall))
    (hp : p ∈ integerProperties) (value : String) (s : σ) :
    (startsWithInteger value = false →
        SetProperty cam p.1 value s = (XError.InvalidPropertyValue, s)) ∧
      (isIntegerText value = true →
        INT_MIN ≤ integerTextValue value → integerTextValue value ≤ INT_MAX →
        ((p.2 (integerTextValue value)).run cam s).1 = true →
        SetProperty cam p.1 value s =
          (XError.Success, ((p.2 (integerTextValue value)).run cam s).2)) := by
  rw [SetProperty_eq_outcome, plannedCall_integer hp]
  unfold integerCall
  constructor
  · intro h
    have hc : ¬ (sscanf_d (c_str value)).scannedCount = 1 := by
      rw [scannedCount_eq_one_iff, h]; exact Bool.false_ne_true
    rw [if_neg hc]; rfl
  · intro h hlo hhi hok
    have hscan := sscanf_d_of_integerText h
    rw [storeInt_of_fits hlo hhi] at hscan
    rw [hscan, if_pos rfl]
    simp only [outcome, hok, setResult_success, if_true]

theorem integer_property_validation_witness :
    SetProperty storingCamera "sharpness" "abc" initialSettings =
        (XError.InvalidPropertyValue, initialSettings) ∧
      SetProperty storingCamera "sharpness" "-42" initialSettings =
        (XError.Success, { initialSettings with sharpness := -42 }) :=
  ⟨(integer_property_validation storingCamera ("sharpness", SetterCall.Sharpness)
      (List.mem_cons_self _ _) "abc" initialSettings).1 (by decide),
    (integer_property_validation storingCamera ("sharpness", SetterCall.Sharpness)
      (List.mem_cons_self _ _) "-42" initialSettings).2 (by decide) (by decide) (by decide)
      (by decide)⟩

/-! ## The mode tables -/

theorem StdMap.find_eq_none_iff {β : Type} (key : String) (m : List (String × β)) :
    StdMap.find key m = none ↔ key ∉ m.map Prod.fst := by
  induction m with
  | nil => simp [StdMap.find]
  | cons e rest ih =>
    by_cases h : e.1 = key
    · simp [StdMap.find, h]
    · have h2 : ¬ key = e.1 := fun h3 => h h3.symm
      simp [StdMap.find, h, h2, ih]

theorem StdMap.find_eq_some {β : Type} {key : String} {m : List (String × β)} {e : String × β}
    (h : StdMap.find key m = some e) : e ∈ m ∧ e.1 = key := by
  induction m with
  | nil => simp [StdMap.find] at h
  | cons a rest ih =>
    by_cases ha : a.1 = key
    · simp only [StdMap.find, ha, if_true, Option.some.injEq] at h
      subst h; exact ⟨List.mem_cons_self _ _, ha⟩
    · simp only [StdMap.find, ha, if_false] at h
      exact ⟨List.mem_cons_of_mem _ (ih h).1, (ih h).2⟩

theorem awb_keys (value : String) :
    value ∈ SupportedAwbModes.map Prod.fst ↔ value ∈ awbNames :=
  ⟨fun h => (by decide : ∀ x ∈ SupportedAwbModes.map Prod.fst, x ∈ awbNames) value h,
    fun h => (by decide : ∀ x ∈ awbNames, x ∈ SupportedAwbModes.map Prod.fst) value h⟩

theorem expmode_keys (value : String) :
    value ∈ SupportedExposureModes.map Prod.fst ↔ value ∈ expmodeNames :=
  ⟨fun h => (by decide : ∀ x ∈ SupportedExposureModes.map Prod.fst, x ∈ expmodeNames) value h,
    fun h => (by decide : ∀ x ∈ expmodeNames, x ∈ SupportedExposureModes.map Prod.fst) value h⟩

theorem expmeteringmode_keys (value : String) :
    value ∈ SupportedExposureMeteringModes.map Prod.fst ↔ value ∈ expmeteringmodeNames :=
  ⟨fun h => (by decide :
      ∀ x ∈ SupportedExposureMeteringModes.map Prod.fst, x ∈ expmeteringmodeNames) value h,
    fun h => (by decide :
      ∀ x ∈ expmeteringmodeNames, x ∈ SupportedExposureMeteringModes.map Prod.fst) value h⟩

theorem effect_keys (value : String) :
    value ∈ SupportedImageEffects.map Prod.fst ↔ value ∈ effectNames :=
  ⟨fun h => (by decide : ∀ x ∈ SupportedImageEffects.map Prod.fst, x ∈ effectNames) value h,
    fun h => (by decide : ∀ x ∈ effectNames, x ∈ SupportedImageEffects.map Prod.fst) value h⟩
theorem plannedCall_awb (value : String) (hflip vflip : Bool) :
    plannedCall "awb" value hflip vflip =
      modeCall SetterCall.WhiteBalanceMode (StdMap.find value SupportedAwbModes) := rfl

theorem plannedCall_expmode (value : String) (hflip vflip : Bool) :
    plannedCall "expmode" value hflip vflip =
      modeCall SetterCall.ExposureMode (StdMap.find value SupportedExposureModes) := rfl

theorem plannedCall_expmeteringmode (value : String) (hflip vflip : Bool) :
    plannedCall "expmeteringmode" value hflip vflip =
      modeCall SetterCall.ExposureMeteringMode (StdMap.find value SupportedExposureMeteringModes) := rfl

theorem plannedCall_effect (value : String) (hflip vflip : Bool) :
    plannedCall "effect" value hflip vflip =
      modeCall SetterCall.ImageEffect (StdMap.find value SupportedImageEffects) := rfl

theorem outcome_ok_ne_invalid (cam : XRaspiCamera σ) (s : σ) (call : SetterCall) :
    (outcome cam s (.ok call)).1 ≠ XError.InvalidPropertyValue := by
  rcases outcome_ok_fst cam s call with h | h <;> rw [h] <;> simp

theorem outcome_mode_invalid_iff {β : Type} (cam : XRaspiCamera σ) (s : σ)
    (r : Option (String × β)) (f : β → SetterCall) :
    (outcome cam s (modeCall f r)).1 = XError.InvalidPropertyValue ↔ r = none := by
  cases r with
  | none => exact iff_of_true rfl rfl
  | some e => exact iff_of_false (outcome_ok_ne_invalid cam s _) (by simp)

/-- Claim C3. For each mode property (awb, expmode, expmeteringmode, effect) and every value
string, `SetProperty` returns `InvalidPropertyValue` exactly when the value is not one of the
names the specification lists for that property (compared exactly, case-sensitively); the four
lists have 10, 13, 4 and 20 names, none repeated. -/
theorem mode_property_invalid_iff_not_a_listed_name (cam : XRaspiCamera σ) (value : String)
    (s : σ) :
    ((SetProperty cam "awb" value s).1 = XError.InvalidPropertyValue ↔
        value ∉ ["Off", "Auto", "Sunlight", "Cloudy", "Shade", "Tungsten", "Fluorescent",
          "Incandescent", "Flash", "Horizon"]) ∧
      ((SetProperty cam "expmode" value s).1 = XError.InvalidPropertyValue ↔
        value ∉ ["Off", "Auto", "Night", "NightPreview", "Backlight", "Spotlight", "Sports",
          "Snow", "Beach", "VeryLong", "FixedFps", "AntiShake", "FireWorks"]) ∧
      ((SetProperty cam "expmeteringmode" value s).1 = XError.InvalidPropertyValue ↔
        value ∉ ["Average", "Spot", "Backlit", "Matrix"]) ∧
      ((SetProperty cam "effect" value s).1 = XError.InvalidPropertyValue ↔
        value ∉ ["None", "Negative", "Solarize", "Sketch", "Denoise", "Emboss", "OilPaint",
          "Hatch", "Gpen", "Pastel", "WaterColor", "Film", "Blur", "Saturation", "ColorSwap",
          "WashedOut", "Posterise", "ColorPoint", "ColorBalance", "Cartoon"]) ∧
      (SupportedAwbModes.length = 10 ∧ SupportedExposureModes.length = 13 ∧
        SupportedExposureMeteringModes.length = 4 ∧ SupportedImageEffects.length = 20) := by
  refine ⟨?_, ?_, ?_, ?_, by decide⟩
  · rw [SetProperty_eq_outcome, plannedCall_awb, outcome_mode_invalid_iff,
      StdMap.find_eq_none_iff, awb_keys]; rfl
  · rw [SetProperty_eq_outcome, plannedCall_expmode, outcome_mode_invalid_iff,
      StdMap.find_eq_none_iff, expmode_keys]; rfl
  · rw [SetProperty_eq_outcome, plannedCall_expmeteringmode, outcome_mode_invalid_iff,
      StdMap.find_eq_none_iff, expmeteringmode_keys]; rfl
  · rw [SetProperty_eq_outcome, plannedCall_effect, outcome_mode_invalid_iff,
      StdMap.find_eq_none_iff, effect_keys]; rfl

/-! ## The journal of setter calls -/

theorem run_recording (cam : XRaspiCamera σ) (call : SetterCall) (s : σ)
    (journal : List SetterCall) :
    call.run (recording cam) (s, journal) =
      ((call.run cam s).1, ((call.run cam s).2, journal ++ [call])) := by
  cases call <;> rfl

theorem SetProperty_of_error (cam : XRaspiCamera σ) {name value : String} {s : σ} {e : XError}
    (h : plannedCall name value (cam.GetHorizontalFlip s) (cam.GetVerticalFlip s) = .error e) :
    SetProperty cam name value s = (e, s) ∧ setterCalls cam name value s = [] := by
  constructor
  · rw [SetProperty_eq_outcome, h]; rfl
  · unfold setterCalls
    rw [SetProperty_eq_outcome]
    have h2 : plannedCall name value ((recording cam).GetHorizontalFlip (s, []))
        ((recording cam).GetVerticalFlip (s, [])) = .error e := h
    rw [h2]; rfl

theorem SetProperty_of_ok (cam : XRaspiCamera σ) {name value : String} {s : σ}
    {call : SetterCall}
    (h : plannedCall name value (cam.GetHorizontalFlip s) (cam.GetVerticalFlip s) = .ok call) :
    SetProperty cam name value s =
        (if (call.run cam s).1 = true then XError.Success else XError.Failed,
          (call.run cam s).2) ∧
      setterCalls cam name value s = [call] := by
  constructor
  · rw [SetProperty_eq_outcome, h]
    simp only [outcome, setResult_success]
  · unfold setterCalls
    rw [SetProperty_eq_outcome]
    have h2 : plannedCall name value ((recording cam).GetHorizontalFlip (s, []))
        ((recording cam).GetVerticalFlip (s, [])) = .ok call := h
    rw [h2]
    simp only [outcome, run_recording, List.nil_append]

theorem plannedCall_error_kind {name value : String} {hflip vflip : Bool} {e : XError}
    (h : plannedCall name value hflip vflip = .error e) :
    (name ∉ recognizedNames ∧ e = XError.UnknownProperty) ∨
      (name ∈ recognizedNames ∧ e = XError.InvalidPropertyValue) := by
  by_cases hn : name ∈ recognizedNames
  · rcases plannedCall_of_recognized hn value hflip vflip with hp | ⟨call, hp⟩
    · rw [hp] at h; cases h; exact Or.inr ⟨hn, rfl⟩
    · rw [hp] at h; cases h
  · rw [plannedCall_of_not_recognized hn] at h; cases h; exact Or.inl ⟨hn, rfl⟩

theorem plannedCall_ok_recognized {name value : String} {hflip vflip : Bool} {call : SetterCall}
    (h : plannedCall name value hflip vflip = .ok call) : name ∈ recognizedNames := by
  by_contra hn
  rw [plannedCall_of_not_recognized hn] at h; cases h

/-- Claim C4. Whenever `SetProperty` returns `UnknownProperty` or `InvalidPropertyValue`, it
has called no setter of the device and the device state after the call is the state before
it; for every name, value, camera and device state. -/
theorem validation_error_leaves_device_untouched (cam : XRaspiCamera σ) (name value : String)
    (s : σ)
    (h : (SetProperty cam name value s).1 = XError.UnknownProperty ∨
      (SetProperty cam name value s).1 = XError.InvalidPropertyValue) :
    setterCalls cam name value s = [] ∧ (SetProperty cam name value s).2 = s := by
  rcases hp : plannedCall name value (cam.GetHorizontalFlip s) (cam.GetVerticalFlip s) with
    e | call
  · obtain ⟨h1, h2⟩ := SetProperty_of_error cam hp
    exact ⟨h2, by rw [h1]⟩
  · exfalso
    rw [(SetProperty_of_ok cam hp).1] at h
    by_cases hb : (call.run cam s).1 = true
    · simp [hb] at h
    · simp [hb] at h

theorem validation_error_leaves_device_untouched_witness :
    (setterCalls storingCamera "sharpness" "abc" initialSettings = [] ∧
        (SetProperty storingCamera "sharpness" "abc" initialSettings).2 = initialSettings) ∧
      (setterCalls storingCamera "colour" "1" initialSettings = [] ∧
        (SetProperty storingCamera "colour" "1" initialSettings).2 = initialSettings) :=
  ⟨validation_error_leaves_device_untouched storingCamera "sharpness" "abc" initialSettings
      (Or.inr (by decide)),
    validation_error_leaves_device_untouched storingCamera "colour" "1" initialSettings
      (Or.inl (by decide))⟩

/-! ## Boolean properties and the joint flip setter -/

theorem truthy_eq_true_iff (value : String) :
    truthy value = true ↔ value = "1" ∨ value = "true" := by
  simp [truthy]

theorem setterCalls_hflip (cam : XRaspiCamera σ) (value : String) (s : σ) :
    setterCalls cam "hflip" value s =
      [SetterCall.CameraFlip (truthy value) (cam.GetVerticalFlip s)] :=
  (SetProperty_of_ok cam (rfl : plannedCall "hflip" value (cam.GetHorizontalFlip s)
    (cam.GetVerticalFlip s) = .ok (SetterCall.CameraFlip (truthy value) (cam.GetVerticalFlip s)))).2

theorem setterCalls_vflip (cam : XRaspiCamera σ) (value : String) (s : σ) :
    setterCalls cam "vflip" value s =
      [SetterCall.CameraFlip (cam.GetHorizontalFlip s) (truthy value)] :=
  (SetProperty_of_ok cam (rfl : plannedCall "vflip" value (cam.GetHorizontalFlip s)
    (cam.GetVerticalFlip s) =
      .ok (SetterCall.CameraFlip (cam.GetHorizontalFlip s) (truthy value)))).2

theorem setterCalls_videostabilisation (cam : XRaspiCamera σ) (value : String) (s : σ) :
    setterCalls cam "videostabilisation" value s =
      [SetterCall.VideoStabilisation (truthy value)] :=
  (SetProperty_of_ok cam (rfl : plannedCall "videostabilisation" value (cam.GetHorizontalFlip s)
    (cam.GetVerticalFlip s) = .ok (SetterCall.VideoStabilisation (truthy value)))).2

/-- Claim C7. Setting `hflip` calls the joint flip setter once, with the truth value of the
given text and the vertical flip the device reports at that moment; setting `vflip` calls it
with the horizontal flip the device reports and the truth value of the text. Hence, on a device
whose joint setter stores both arguments, reading `vflip` after setting `hflip` returns what it
returned before, and reading `hflip` after setting `vflip` likewise. -/
theorem flip_setter_keeps_the_other_axis (cam : XRaspiCamera σ) (value out : String) (s : σ) :
    setterCalls cam "hflip" value s =
        [SetterCall.CameraFlip (value == "1" || value == "true") (cam.GetVerticalFlip s)] ∧
      setterCalls cam "vflip" value s =
        [SetterCall.CameraFlip (cam.GetHorizontalFlip s) (value == "1" || value == "true")] ∧
      ((∀ hflip vflip t, cam.GetHorizontalFlip (cam.SetCameraFlip hflip vflip t).2 = hflip ∧
          cam.GetVerticalFlip (cam.SetCameraFlip hflip vflip t).2 = vflip) →
        GetProperty cam "vflip" out (SetProperty cam "hflip" value s).2 =
            GetProperty cam "vflip" out s ∧
          GetProperty cam "hflip" out (SetProperty cam "vflip" value s).2 =
            GetProperty cam "hflip" out s) := by
  refine ⟨setterCalls_hflip cam value s, setterCalls_vflip cam value s, ?_⟩
  intro hstore
  have hg1 : ∀ t, GetProperty cam "vflip" out t =
      (XError.Success, if cam.GetVerticalFlip t then "1" else "0") := fun _ => rfl
  have hg2 : ∀ t, GetProperty cam "hflip" out t =
      (XError.Success, if cam.GetHorizontalFlip t then "1" else "0") := fun _ => rfl
  have hs1 : (SetProperty cam "hflip" value s).2 =
      (cam.SetCameraFlip (truthy value) (cam.GetVerticalFlip s) s).2 := rfl
  have hs2 : (SetProperty cam "vflip" value s).2 =
      (cam.SetCameraFlip (cam.GetHorizontalFlip s) (truthy value) s).2 := rfl
  rw [hg1, hg1, hg2, hg2, hs1, hs2, (hstore _ _ _).2, (hstore _ _ _).1]
  exact ⟨rfl, rfl⟩

theorem flip_setter_keeps_the_other_axis_witness :
    GetProperty storingCamera "vflip" ""
        (SetProperty storingCamera "hflip" "true" { initialSettings with vflip := true }).2 =
      GetProperty storingCamera "vflip" "" { initialSettings with vflip := true } ∧
    GetProperty storingCamera "hflip" ""
        (SetProperty storingCamera "vflip" "0" { initialSettings with hflip := true }).2 =
      GetProperty storingCamera "hflip" "" { initialSettings with hflip := true } :=
  ⟨((flip_setter_keeps_the_other_axis storingCamera "true" ""
      { initialSettings with vflip := true }).2.2 (fun _ _ _ => ⟨rfl, rfl⟩)).1,
    ((flip_setter_keeps_the_other_axis storingCamera "0" ""
      { initialSettings with hflip := true }).2.2 (fun _ _ _ => ⟨rfl, rfl⟩)).2⟩

/-- Claim C8. For each boolean property (hflip, vflip, videostabilisation) and every value
string, the boolean handed to the device setter is true exactly when the value is "1" or
"true"; in particular "True", "TRUE", "yes", " 1" and "" hand over false. `SetProperty` never
returns `InvalidPropertyValue` for a boolean property. -/
theorem boolean_value_is_true_iff_one_or_true (cam : XRaspiCamera σ) (value : String) (s : σ) :
    (∃ flag : Bool, (flag = true ↔ (value = "1" ∨ value = "true")) ∧
        setterCalls cam "hflip" value s =
          [SetterCall.CameraFlip flag (cam.GetVerticalFlip s)] ∧
        setterCalls cam "vflip" value s =
          [SetterCall.CameraFlip (cam.GetHorizontalFlip s) flag] ∧
        setterCalls cam "videostabilisation" value s = [SetterCall.VideoStabilisation flag]) ∧
      (∀ v ∈ ["True", "TRUE", "yes", " 1", ""],
        setterCalls cam "hflip" v s = [SetterCall.CameraFlip false (cam.GetVerticalFlip s)] ∧
        setterCalls cam "vflip" v s = [SetterCall.CameraFlip (cam.GetHorizontalFlip s) false] ∧
        setterCalls cam "videostabilisation" v s = [SetterCall.VideoStabilisation false]) ∧
      (∀ name ∈ ["hflip", "vflip", "videostabilisation"],
        (SetProperty cam name value s).1 ≠ XError.InvalidPropertyValue) := by
  refine ⟨⟨truthy value, truthy_eq_true_iff value, setterCalls_hflip cam value s,
    setterCalls_vflip cam value s, setterCalls_videostabilisation cam value s⟩, ?_, ?_⟩
  · intro v hv
    have hf : truthy v = false := by
      simp only [List.mem_cons, List.mem_singleton, List.not_mem_nil, or_false] at hv
      rcases hv with rfl | rfl | rfl | rfl | rfl <;> decide
    rw [setterCalls_hflip, setterCalls_vflip, setterCalls_videostabilisation, hf]
    exact ⟨rfl, rfl, rfl⟩
  · intro name hn
    simp only [List.mem_cons, List.mem_singleton, List.not_mem_nil, or_false] at hn
    rw [SetProperty_eq_outcome]
    rcases hn with rfl | rfl | rfl <;> exact outcome_ok_ne_invalid cam s _

/-! ## Setting and reading back -/

theorem firstNameOf_of_mem {β : Type} [DecidableEq β] (mode : β) (v w : String)
    (table : List (String × β)) (h : mode ∈ table.map Prod.snd) :
    firstNameOf mode v table = firstNameOf mode w table := by
  induction table with
  | nil => simp at h
  | cons e rest ih =>
    by_cases he : e.2 = mode
    · simp [firstNameOf, he]
    · have hm : mode ∈ rest.map Prod.snd := by
        rcases List.mem_cons.1 h with h1 | h1
        · exact absurd h1.symm he
        · exact h1
      simp [firstNameOf, he, ih hm]

theorem firstNameOf_of_find {β : Type} [DecidableEq β] {table : List (String × β)}
    {e : String × β} {value : String} (he : e ∈ table)
    (hname : firstNameOf e.2 "" table = value) (out : String) :
    firstNameOf e.2 out table = value := by
  rw [firstNameOf_of_mem e.2 out "" table (List.mem_map_of_mem Prod.snd he), hname]

theorem awb_reads_back : ∀ v ∈ awbNames, ∃ e ∈ SupportedAwbModes,
    StdMap.find v SupportedAwbModes = some e ∧ firstNameOf e.2 "" SupportedAwbModes = v := by
  decide

theorem expmode_reads_back : ∀ v ∈ expmodeNames, ∃ e ∈ SupportedExposureModes,
    StdMap.find v SupportedExposureModes = some e ∧
      firstNameOf e.2 "" SupportedExposureModes = v := by
  decide

theorem expmeteringmode_reads_back : ∀ v ∈ expmeteringmodeNames,
    ∃ e ∈ SupportedExposureMeteringModes,
      StdMap.find v SupportedExposureMeteringModes = some e ∧
        firstNameOf e.2 "" SupportedExposureMeteringModes = v := by
  decide

set_option maxRecDepth 4096 in
theorem effect_reads_back : ∀ v ∈ effectNames, ∃ e ∈ SupportedImageEffects,
    StdMap.find v SupportedImageEffects = some e ∧
      firstNameOf e.2 "" SupportedImageEffects = v := by
  decide
theorem startsWithInteger_of_integerText {value : String} (h : isIntegerText value = true) :
    startsWithInteger value = true := by
  rw [← scannedCount_eq_one_iff, sscanf_d_of_integerText h]

theorem numericValue_of_integerText {value : String} (h : isIntegerText value = true)
    (hlo : INT_MIN ≤ integerTextValue value) (hhi : integerTextValue value ≤ INT_MAX) :
    (sscanf_d (c_str value)).numericValue = integerTextValue value := by
  rw [sscanf_d_of_integerText h, storeInt_of_fits hlo hhi]

theorem SetProperty_integer (cam : XRaspiCamera σ) {p : String × (Int → SetterCall)}
    (hp : p ∈ integerProperties) {value : String} (h : startsWithInteger value = true) (s : σ) :
    SetProperty cam p.1 value s =
      (if ((p.2 (sscanf_d (c_str value)).numericValue).run cam s).1 = true then XError.Success
        else XError.Failed,
        ((p.2 (sscanf_d (c_str value)).numericValue).run cam s).2) := by
  have hc := (scannedCount_eq_one_iff value).2 h
  have hpc : plannedCall p.1 value (cam.GetHorizontalFlip s) (cam.GetVerticalFlip s) =
      .ok (p.2 (sscanf_d (c_str value)).numericValue) := by
    rw [plannedCall_integer hp]; unfold integerCall; rw [if_pos hc]
  exact (SetProperty_of_ok cam hpc).1

theorem SetProperty_mode (cam : XRaspiCamera σ) {β : Type} {name value : String}
    {f : β → SetterCall} {table : List (String × β)} {e : String × β}
    (hpc : ∀ hflip vflip, plannedCall name value hflip vflip =
      modeCall f (StdMap.find value table))
    (he : StdMap.find value table = some e) (s : σ) :
    SetProperty cam name value s =
      (if ((f e.2).run cam s).1 = true then XError.Success else XError.Failed,
        ((f e.2).run cam s).2) := by
  have h : plannedCall name value (cam.GetHorizontalFlip s) (cam.GetVerticalFlip s) =
      .ok (f e.2) := by
    rw [hpc, he]; rfl
  exact (SetProperty_of_ok cam h).1

/-- Claim C6, as stated, fails beyond the range of `int`: "4294967338" is base-10 signed
integer text, setting `sharpness` to it on a camera that stores what it is given returns
`Success`, and reading `sharpness` back returns "42", not the decimal text of the number that
was set. -/
theorem integer_text_beyond_int_reads_back_another_number :
    isIntegerText "4294967338" = true ∧ integerTextValue "4294967338" = 4294967338 ∧
      (SetProperty storingCamera "sharpness" "4294967338" initialSettings).1 = XError.Success ∧
      GetProperty storingCamera "sharpness" ""
          (SetProperty storingCamera "sharpness" "4294967338" initialSettings).2 =
        (XError.Success, "42") ∧
      GetProperty storingCamera "sharpness" ""
          (SetProperty storingCamera "sharpness" "4294967338" initialSettings).2 ≠
        (XError.Success, "4294967338") := by
  refine ⟨by decide, by decide, by decide, by decide, by decide⟩

/-- Claim C6, amended. On a device whose setters store the given value and report success and
whose getters return the stored value, setting a recognized property to a value its grammar
accepts (for an integer property: base-10 signed integer text whose number fits in `int`)
returns `Success`, and reading the property afterwards returns `Success` with: "1" when the
boolean text was "1" or "true" and "0" otherwise; the decimal text of the integer the text
denotes for an integer property; the very name that was set for a mode property. -/
theorem set_then_get_returns_the_value_set (cam : XRaspiCamera σ) (hst : StoresWhatIsSet cam)
    (value out : String) (s : σ) :
    (∀ name ∈ ["hflip", "vflip", "videostabilisation"],
        (SetProperty cam name value s).1 = XError.Success ∧
        GetProperty cam name out (SetProperty cam name value s).2 =
          (XError.Success, if value = "1" ∨ value = "true" then "1" else "0")) ∧
      (∀ name ∈ ["sharpness", "contrast", "brightness", "saturation"],
        isIntegerText value = true →
          INT_MIN ≤ integerTextValue value → integerTextValue value ≤ INT_MAX →
          (SetProperty cam name value s).1 = XError.Success ∧
          GetProperty cam name out (SetProperty cam name value s).2 =
            (XError.Success, sprintf_d (integerTextValue value))) ∧
      (value ∈ awbNames →
        (SetProperty cam "awb" value s).1 = XError.Success ∧
        GetProperty cam "awb" out (SetProperty cam "awb" value s).2 =
          (XError.Success, value)) ∧
      (value ∈ expmodeNames →
        (SetProperty cam "expmode" value s).1 = XError.Success ∧
        GetProperty cam "expmode" out (SetProperty cam "expmode" value s).2 =
          (XError.Success, value)) ∧
      (value ∈ expmeteringmodeNames →
        (SetProperty cam "expmeteringmode" value s).1 = XError.Success ∧
        GetProperty cam "expmeteringmode" out (SetProperty cam "expmeteringmode" value s).2 =
          (XError.Success, value)) ∧
      (value ∈ effectNames →
        (SetProperty cam "effect" value s).1 = XError.Success ∧
        GetProperty cam "effect" out (SetProperty cam "effect" value s).2 =
          (XError.Success, value)) := by
  have hbool : (if truthy value = true then "1" else "0") =
      (if value = "1" ∨ value = "true" then "1" else "0") := by
    by_cases h : value = "1" ∨ value = "true"
    · rw [if_pos h, if_pos ((truthy_eq_true_iff value).2 h)]
    · rw [if_neg h, if_neg (fun h2 => h ((truthy_eq_true_iff value).1 h2))]
  have hint : ∀ name ∈ ["sharpness", "contrast", "brightness", "saturation"],
      startsWithInteger value = true →
        (SetProperty cam name value s).1 = XError.Success ∧
        GetProperty cam name out (SetProperty cam name value s).2 =
          (XError.Success, sprintf_d (sscanf_d (c_str value)).numericValue) := by
    intro name hn hv
    simp only [List.mem_cons, List.mem_singleton, List.not_mem_nil, or_false] at hn
    rcases hn with rfl | rfl | rfl | rfl
    · have h := SetProperty_integer cam (p := ("sharpness", SetterCall.Sharpness))
        (by simp [integerProperties]) hv s
      simp only [SetterCall.run, (hst.sharpness _ _).1, if_true] at h
      rw [h]
      refine ⟨rfl, ?_⟩
      show (XError.Success, sprintf_d (cam.GetSharpness _)) = _
      rw [(hst.sharpness _ _).2]
    · have h := SetProperty_integer cam (p := ("contrast", SetterCall.Contrast))
        (by simp [integerProperties]) hv s
      simp only [SetterCall.run, (hst.contrast _ _).1, if_true] at h
      rw [h]
      refine ⟨rfl, ?_⟩
      show (XError.Success, sprintf_d (cam.GetContrast _)) = _
      rw [(hst.contrast _ _).2]
    · have h := SetProperty_integer cam (p := ("brightness", SetterCall.Brightness))
        (by simp [integerProperties]) hv s
      simp only [SetterCall.run, (hst.brightness _ _).1, if_true] at h
      rw [h]
      refine ⟨rfl, ?_⟩
      show (XError.Success, sprintf_d (cam.GetBrightness _)) = _
      rw [(hst.brightness _ _).2]
    · have h := SetProperty_integer cam (p := ("saturation", SetterCall.Saturation))
        (by simp [integerProperties]) hv s
      simp only [SetterCall.run, (hst.saturation _ _).1, if_true] at h
      rw [h]
      refine ⟨rfl, ?_⟩
      show (XError.Success, sprintf_d (cam.GetSaturation _)) = _
      rw [(hst.saturation _ _).2]
  refine ⟨?_, ?_, ?_, ?_, ?_, ?_⟩
  · intro name hn
    simp only [List.mem_cons, List.mem_singleton, List.not_mem_nil, or_false] at hn
    rw [← hbool]
    rcases hn with rfl | rfl | rfl
    · have h := (SetProperty_of_ok cam (rfl : plannedCall "hflip" value (cam.GetHorizontalFlip s)
        (cam.GetVerticalFlip s) = .ok (SetterCall.CameraFlip (truthy value)
          (cam.GetVerticalFlip s)))).1
      simp only [SetterCall.run, (hst.cameraFlip _ _ _).1, if_true] at h
      rw [h]
      refine ⟨rfl, ?_⟩
      show (XError.Success, if cam.GetHorizontalFlip _ = true then "1" else "0") = _
      rw [(hst.cameraFlip _ _ _).2.1]
    · have h := (SetProperty_of_ok cam (rfl : plannedCall "vflip" value (cam.GetHorizontalFlip s)
        (cam.GetVerticalFlip s) = .ok (SetterCall.CameraFlip (cam.GetHorizontalFlip s)
          (truthy value)))).1
      simp only [SetterCall.run, (hst.cameraFlip _ _ _).1, if_true] at h
      rw [h]
      refine ⟨rfl, ?_⟩
      show (XError.Success, if cam.GetVerticalFlip _ = true then "1" else "0") = _
      rw [(hst.cameraFlip _ _ _).2.2]
    · have h := (SetProperty_of_ok cam (rfl : plannedCall "videostabilisation" value
        (cam.GetHorizontalFlip s) (cam.GetVerticalFlip s) =
          .ok (SetterCall.VideoStabilisation (truthy value)))).1
      simp only [SetterCall.run, (hst.videoStabilisation _ _).1, if_true] at h
      rw [h]
      refine ⟨rfl, ?_⟩
      show (XError.Success, if cam.GetVideoStabilisation _ = true then "1" else "0") = _
      rw [(hst.videoStabilisation _ _).2]
  · intro name hn hv hlo hhi
    rw [← numericValue_of_integerText hv hlo hhi]
    exact hint name hn (startsWithInteger_of_integerText hv)
  · intro hv
    obtain ⟨e, he, hfind, hname⟩ := awb_reads_back value hv
    have h := SetProperty_mode cam (plannedCall_awb value) hfind s
    simp only [SetterCall.run, (hst.whiteBalanceMode _ _).1, if_true] at h
    rw [h]
    refine ⟨rfl, ?_⟩
    show (XError.Success, firstNameOf (cam.GetWhiteBalanceMode _) out SupportedAwbModes) = _
    rw [(hst.whiteBalanceMode _ _).2, firstNameOf_of_find he hname]
  · intro hv
    obtain ⟨e, he, hfind, hname⟩ := expmode_reads_back value hv
    have h := SetProperty_mode cam (plannedCall_expmode value) hfind s
    simp only [SetterCall.run, (hst.exposureMode _ _).1, if_true] at h
    rw [h]
    refine ⟨rfl, ?_⟩
    show (XError.Success, firstNameOf (cam.GetExposureMode _) out SupportedExposureModes) = _
    rw [(hst.exposureMode _ _).2, firstNameOf_of_find he hname]
  · intro hv
    obtain ⟨e, he, hfind, hname⟩ := expmeteringmode_reads_back value hv
    have h := SetProperty_mode cam (plannedCall_expmeteringmode value) hfind s
    simp only [SetterCall.run, (hst.exposureMeteringMode _ _).1, if_true] at h
    rw [h]
    refine ⟨rfl, ?_⟩
    show (XError.Success,
      firstNameOf (cam.GetExposureMeteringMode _) out SupportedExposureMeteringModes) = _
    rw [(hst.exposureMeteringMode _ _).2, firstNameOf_of_find he hname]
  · intro hv
    obtain ⟨e, he, hfind, hname⟩ := effect_reads_back value hv
    have h := SetProperty_mode cam (plannedCall_effect value) hfind s
    simp only [SetterCall.run, (hst.imageEffect _ _).1, if_true] at h
    rw [h]
    refine ⟨rfl, ?_⟩
    show (XError.Success, firstNameOf (cam.GetImageEffect _) out SupportedImageEffects) = _
    rw [(hst.imageEffect _ _).2, firstNameOf_of_find he hname]

theorem storingCamera_stores : StoresWhatIsSet storingCamera :=
  ⟨fun _ _ _ => ⟨rfl, rfl, rfl⟩, fun _ _ => ⟨rfl, rfl⟩, fun _ _ => ⟨rfl, rfl⟩,
    fun _ _ => ⟨rfl, rfl⟩, fun _ _ => ⟨rfl, rfl⟩, fun _ _ => ⟨rfl, rfl⟩, fun _ _ => ⟨rfl, rfl⟩,
    fun _ _ => ⟨rfl, rfl⟩, fun _ _ => ⟨rfl, rfl⟩, fun _ _ => ⟨rfl, rfl⟩⟩

theorem set_then_get_returns_the_value_set_witness :
    GetProperty storingCamera "awb" ""
        (SetProperty storingCamera "awb" "Auto" initialSettings).2 = (XError.Success, "Auto") ∧
      GetProperty storingCamera "sharpness" ""
        (SetProperty storingCamera "sharpness" "42" initialSettings).2 =
          (XError.Success, "42") ∧
      GetProperty storingCamera "hflip" ""
        (SetProperty storingCamera "hflip" "true" initialSettings).2 = (XError.Success, "1") :=
  ⟨((set_then_get_returns_the_value_set storingCamera storingCamera_stores "Auto" ""
      initialSettings).2.2.1 (by decide)).2,
    ((set_then_get_returns_the_value_set storingCamera storingCamera_stores "42" ""
      initialSettings).2.1 "sharpness" (by decide) (by decide) (by decide) (by decide)).2,
    ((set_then_get_returns_the_value_set storingCamera storingCamera_stores "true" ""
      initialSettings).1 "hflip" (by decide)).2⟩

/-! ## The mode tables are one-to-one -/

theorem awb_one_to_one : ∀ e1 ∈ SupportedAwbModes, ∀ e2 ∈ SupportedAwbModes,
    e1.2 = e2.2 → e1.1 = e2.1 := by
  decide

theorem expmode_one_to_one : ∀ e1 ∈ SupportedExposureModes, ∀ e2 ∈ SupportedExposureModes,
    e1.2 = e2.2 → e1.1 = e2.1 := by
  decide

theorem expmeteringmode_one_to_one : ∀ e1 ∈ SupportedExposureMeteringModes,
    ∀ e2 ∈ SupportedExposureMeteringModes, e1.2 = e2.2 → e1.1 = e2.1 := by
  decide

set_option maxRecDepth 8192 in
theorem effect_one_to_one : ∀ e1 ∈ SupportedImageEffects, ∀ e2 ∈ SupportedImageEffects,
    e1.2 = e2.2 → e1.1 = e2.1 := by
  decide

theorem one_to_one_of_find {β : Type} {table : List (String × β)}
    (h : ∀ e1 ∈ table, ∀ e2 ∈ table, e1.2 = e2.2 → e1.1 = e2.1)
    {n1 n2 : String} {e1 e2 : String × β} (h1 : StdMap.find n1 table = some e1)
    (h2 : StdMap.find n2 table = some e2) (hne : n1 ≠ n2) : e1.2 ≠ e2.2 := by
  intro heq
  obtain ⟨m1, k1⟩ := StdMap.find_eq_some h1
  obtain ⟨m2, k2⟩ := StdMap.find_eq_some h2
  exact hne (by rw [← k1, ← k2]; exact h e1 m1 e2 m2 heq)

/-- Claim C10. Each of the four mode tables (awb, expmode, expmeteringmode, effect) is
injective: two distinct names that the table maps are mapped to different enum values, so an
enum value that occurs in a table is the value of exactly one name. -/
theorem mode_tables_are_injective (n1 n2 : String) :
    (∀ e1 e2, StdMap.find n1 SupportedAwbModes = some e1 →
        StdMap.find n2 SupportedAwbModes = some e2 → n1 ≠ n2 → e1.2 ≠ e2.2) ∧
      (∀ e1 e2, StdMap.find n1 SupportedExposureModes = some e1 →
        StdMap.find n2 SupportedExposureModes = some e2 → n1 ≠ n2 → e1.2 ≠ e2.2) ∧
      (∀ e1 e2, StdMap.find n1 SupportedExposureMeteringModes = some e1 →
        StdMap.find n2 SupportedExposureMeteringModes = some e2 → n1 ≠ n2 → e1.2 ≠ e2.2) ∧
      (∀ e1 e2, StdMap.find n1 SupportedImageEffects = some e1 →
        StdMap.find n2 SupportedImageEffects = some e2 → n1 ≠ n2 → e1.2 ≠ e2.2) ∧
      (∀ e1 ∈ SupportedAwbModes, ∀ e2 ∈ SupportedAwbModes, e1.2 = e2.2 → e1 = e2) ∧
      (∀ e1 ∈ SupportedExposureModes, ∀ e2 ∈ SupportedExposureModes, e1.2 = e2.2 → e1 = e2) ∧
      (∀ e1 ∈ SupportedExposureMeteringModes, ∀ e2 ∈ SupportedExposureMeteringModes,
        e1.2 = e2.2 → e1 = e2) ∧
      (∀ e1 ∈ SupportedImageEffects, ∀ e2 ∈ SupportedImageEffects, e1.2 = e2.2 → e1 = e2) :=
  ⟨fun _ _ h1 h2 hne => one_to_one_of_find awb_one_to_one h1 h2 hne,
    fun _ _ h1 h2 hne => one_to_one_of_find expmode_one_to_one h1 h2 hne,
    fun _ _ h1 h2 hne => one_to_one_of_find expmeteringmode_one_to_one h1 h2 hne,
    fun _ _ h1 h2 hne => one_to_one_of_find effect_one_to_one h1 h2 hne,
    fun e1 m1 e2 m2 h => Prod.ext (awb_one_to_one e1 m1 e2 m2 h) h,
    fun e1 m1 e2 m2 h => Prod.ext (expmode_one_to_one e1 m1 e2 m2 h) h,
    fun e1 m1 e2 m2 h => Prod.ext (expmeteringmode_one_to_one e1 m1 e2 m2 h) h,
    fun e1 m1 e2 m2 h => Prod.ext (effect_one_to_one e1 m1 e2 m2 h) h⟩

/-! ## `GetAllProperties` -/

theorem GetAllProperties_eq (cam : XRaspiCamera σ) (s : σ) :
    GetAllProperties cam s =
      [("awb", (GetProperty cam "awb" "" s).2),
        ("brightness", (GetProperty cam "brightness" "" s).2),
        ("contrast", (GetProperty cam "contrast" "" s).2),
        ("effect", (GetProperty cam "effect" "" s).2),
        ("expmeteringmode", (GetProperty cam "expmeteringmode" "" s).2),
        ("expmode", (GetProperty cam "expmode" "" s).2),
        ("hflip", (GetProperty cam "hflip" "" s).2),
        ("saturation", (GetProperty cam "saturation" "" s).2),
        ("sharpness", (GetProperty cam "sharpness" "" s).2),
        ("vflip", (GetProperty cam "vflip" "" s).2),
        ("videostabilisation", (GetProperty cam "videostabilisation" "" s).2)] := rfl

theorem GetAllProperties_keys (cam : XRaspiCamera σ) (s : σ) :
    (GetAllProperties cam s).map Prod.fst =
      ["awb", "brightness", "contrast", "effect", "expmeteringmode", "expmode", "hflip",
        "saturation", "sharpness", "vflip", "videostabilisation"] := rfl

theorem find_of_recognized {name : String} (hn : name ∈ recognizedNames)
    (cam : XRaspiCamera σ) (s : σ) :
    StdMap.find name (GetAllProperties cam s) = some (name, (GetProperty cam name "" s).2) := by
  rw [GetAllProperties_eq]
  rcases (recognized_iff name).1 hn with
    rfl | rfl | rfl | rfl | rfl | rfl | rfl | rfl | rfl | rfl | rfl <;> rfl

/-- Claim C9. In every device state the keys of the mapping `GetAllProperties` returns are
exactly the recognized property names for which `GetProperty` returns `Success` in that state,
no key occurs twice, and the string mapped to a key is the one `GetProperty` produces for that
name when it is called with an empty output string. -/
theorem GetAllProperties_holds_what_GetProperty_returns (cam : XRaspiCamera σ) (s : σ)
    (name value out : String) :
    (name ∈ (GetAllProperties cam s).map Prod.fst ↔
        name ∈ ["hflip", "vflip", "videostabilisation", "sharpness", "contrast", "brightness",
          "saturation", "awb", "expmode", "expmeteringmode", "effect"] ∧
        (GetProperty cam name out s).1 = XError.Success) ∧
      (StdMap.find name (GetAllProperties cam s) = some (name, value) ↔
        name ∈ ["hflip", "vflip", "videostabilisation", "sharpness", "contrast", "brightness",
          "saturation", "awb", "expmode", "expmeteringmode", "effect"] ∧
        GetProperty cam name "" s = (XError.Success, value)) ∧
      ((GetAllProperties cam s).map Prod.fst).Nodup := by
  change (_ ↔ name ∈ recognizedNames ∧ _) ∧ (_ ↔ name ∈ recognizedNames ∧ _) ∧ _
  have hkeys : name ∈ (GetAllProperties cam s).map Prod.fst ↔ name ∈ recognizedNames := by
    rw [GetAllProperties_keys]
    exact ⟨fun h => (by decide : ∀ x ∈ ["awb", "brightness", "contrast", "effect",
        "expmeteringmode", "expmode", "hflip", "saturation", "sharpness", "vflip",
        "videostabilisation"], x ∈ recognizedNames) name h,
      fun h => (by decide : ∀ x ∈ recognizedNames, x ∈ ["awb", "brightness", "contrast",
        "effect", "expmeteringmode", "expmode", "hflip", "saturation", "sharpness", "vflip",
        "videostabilisation"]) name h⟩
  refine ⟨?_, ?_, ?_⟩
  · rw [hkeys]
    exact ⟨fun h => ⟨h, GetProperty_of_recognized cam h out s⟩, fun h => h.1⟩
  · by_cases hn : name ∈ recognizedNames
    · rw [find_of_recognized hn]
      have hs := GetProperty_of_recognized cam hn "" s
      constructor
      · intro h
        simp only [Option.some.injEq, Prod.mk.injEq, true_and] at h
        exact ⟨hn, Prod.ext hs h⟩
      · rintro ⟨_, h⟩
        rw [h]
    · have hfind : StdMap.find name (GetAllProperties cam s) = none :=
        (StdMap.find_eq_none_iff name _).2 (fun h => hn (hkeys.1 h))
      rw [hfind]
      exact iff_of_false (by simp) (fun h => hn h.1)
  · rw [GetAllProperties_keys]; decide

/-! ## The three outcomes of a validated call, on concrete cameras -/

theorem failed_is_reachable :
    SetProperty (statusCamera false) "sharpness" "42" initialSettings =
        (XError.Failed, initialSettings) ∧
      setterCalls (statusCamera false) "sharpness" "42" initialSettings =
        [SetterCall.Sharpness 42] ∧
      SetProperty (statusCamera true) "sharpness" "42" initialSettings =
        (XError.Success, { initialSettings with sharpness := 42 }) := by
  refine ⟨by decide, by decide, by decide⟩

/-! ## Reading a mode back -/

theorem firstNameOf_of_not_mem {β : Type} [DecidableEq β] (mode : β) (out : String)
    (table : List (String × β)) (h : mode ∉ table.map Prod.snd) :
    firstNameOf mode out table = out := by
  induction table with
  | nil => rfl
  | cons e rest ih =>
    have he : ¬ e.2 = mode := fun h1 => h (by simp [← h1])
    have hr : mode ∉ rest.map Prod.snd := fun h1 => h (by simp at h1 ⊢; exact Or.inr h1)
    simp [firstNameOf, he, ih hr]

theorem firstNameOf_mem {β : Type} [DecidableEq β] (mode : β) (out : String)
    (table : List (String × β)) (h : mode ∈ table.map Prod.snd) :
    ∃ e ∈ table, e.2 = mode ∧ firstNameOf mode out table = e.1 := by
  induction table with
  | nil => simp at h
  | cons a rest ih =>
    by_cases ha : a.2 = mode
    · exact ⟨a, List.mem_cons_self _ _, ha, by simp [firstNameOf, ha]⟩
    · have hm : mode ∈ rest.map Prod.snd := by
        rcases List.mem_cons.1 h with h1 | h1
        · exact absurd h1.symm ha
        · exact h1
      obtain ⟨e, he, hmode, hname⟩ := ih hm
      exact ⟨e, List.mem_cons_of_mem _ he, hmode, by simp [firstNameOf, ha, hname]⟩

theorem firstNameOf_of_perm {β : Type} [DecidableEq β] {table order : List (String × β)}
    (hinj : ∀ e1 ∈ table, ∀ e2 ∈ table, e1.2 = e2.2 → e1.1 = e2.1)
    (hp : order.Perm table) {e : String × β} (he : e ∈ table) (out : String) :
    firstNameOf e.2 out order = e.1 := by
  have hmem : e.2 ∈ order.map Prod.snd := List.mem_map_of_mem Prod.snd (hp.mem_iff.2 he)
  obtain ⟨a, ha, hmode, hname⟩ := firstNameOf_mem e.2 out order hmem
  rw [hname]
  exact hinj a (hp.mem_iff.1 ha) e he hmode

theorem name_of_find {β : Type} {table : List (String × β)}
    (hinj : ∀ e1 ∈ table, ∀ e2 ∈ table, e1.2 = e2.2 → e1.1 = e2.1)
    {e : String × β} (he : e ∈ table) {n : String} {e2 : String × β}
    (hfind : StdMap.find n table = some e2) (hmode : e2.2 = e.2) : n = e.1 := by
  obtain ⟨m2, k2⟩ := StdMap.find_eq_some hfind
  rw [← k2]
  exact hinj e2 m2 e he hmode

theorem awb_find_entry : ∀ e ∈ SupportedAwbModes, StdMap.find e.1 SupportedAwbModes = some e := by
  decide

theorem expmode_find_entry :
    ∀ e ∈ SupportedExposureModes, StdMap.find e.1 SupportedExposureModes = some e := by
  decide

theorem expmeteringmode_find_entry : ∀ e ∈ SupportedExposureMeteringModes,
    StdMap.find e.1 SupportedExposureMeteringModes = some e := by
  decide

theorem effect_find_entry :
    ∀ e ∈ SupportedImageEffects, StdMap.find e.1 SupportedImageEffects = some e := by
  decide

/-- Claim C11. For each mode property, in every device state whose current mode value occurs in
the property's table, `GetProperty` returns `Success` with the name of the entry holding that
value: looking that name up in the table (as `SetProperty` does) yields the device's value, no
other name does, and the loop finds the same name in whatever order the entries are visited. -/
theorem mode_property_reads_back_its_name (cam : XRaspiCamera σ) (out : String) (s : σ) :
    (∀ e ∈ SupportedAwbModes, cam.GetWhiteBalanceMode s = e.2 →
        GetProperty cam "awb" out s = (XError.Success, e.1) ∧
        StdMap.find e.1 SupportedAwbModes = some e ∧
        (∀ n e2, StdMap.find n SupportedAwbModes = some e2 →
          e2.2 = cam.GetWhiteBalanceMode s → n = e.1) ∧
        (∀ order : List (String × AwbMode), order.Perm SupportedAwbModes →
          firstNameOf (cam.GetWhiteBalanceMode s) out order = e.1)) ∧
      (∀ e ∈ SupportedExposureModes, cam.GetExposureMode s = e.2 →
        GetProperty cam "expmode" out s = (XError.Success, e.1) ∧
        StdMap.find e.1 SupportedExposureModes = some e ∧
        (∀ n e2, StdMap.find n SupportedExposureModes = some e2 →
          e2.2 = cam.GetExposureMode s → n = e.1) ∧
        (∀ order : List (String × ExposureMode), order.Perm SupportedExposureModes →
          firstNameOf (cam.GetExposureMode s) out order = e.1)) ∧
      (∀ e ∈ SupportedExposureMeteringModes, cam.GetExposureMeteringMode s = e.2 →
        GetProperty cam "expmeteringmode" out s = (XError.Success, e.1) ∧
        StdMap.find e.1 SupportedExposureMeteringModes = some e ∧
        (∀ n e2, StdMap.find n SupportedExposureMeteringModes = some e2 →
          e2.2 = cam.GetExposureMeteringMode s → n = e.1) ∧
        (∀ order : List (String × ExposureMeteringMode),
          order.Perm SupportedExposureMeteringModes →
          firstNameOf (cam.GetExposureMeteringMode s) out order = e.1)) ∧
      (∀ e ∈ SupportedImageEffects, cam.GetImageEffect s = e.2 →
        GetProperty cam "effect" out s = (XError.Success, e.1) ∧
        StdMap.find e.1 SupportedImageEffects = some e ∧
        (∀ n e2, StdMap.find n SupportedImageEffects = some e2 →
          e2.2 = cam.GetImageEffect s → n = e.1) ∧
        (∀ order : List (String × ImageEffect), order.Perm SupportedImageEffects →
          firstNameOf (cam.GetImageEffect s) out order = e.1)) := by
  refine ⟨?_, ?_, ?_, ?_⟩
  · intro e he hm
    have hg : GetProperty cam "awb" out s =
        (XError.Success, firstNameOf (cam.GetWhiteBalanceMode s) out SupportedAwbModes) := rfl
    rw [hg, hm]
    exact ⟨by rw [firstNameOf_of_perm awb_one_to_one (List.Perm.refl _) he],
      awb_find_entry e he, fun n e2 h1 h2 => name_of_find awb_one_to_one he h1 h2,
      fun order hp => firstNameOf_of_perm awb_one_to_one hp he out⟩
  · intro e he hm
    have hg : GetProperty cam "expmode" out s =
        (XError.Success, firstNameOf (cam.GetExposureMode s) out SupportedExposureModes) := rfl
    rw [hg, hm]
    exact ⟨by rw [firstNameOf_of_perm expmode_one_to_one (List.Perm.refl _) he],
      expmode_find_entry e he, fun n e2 h1 h2 => name_of_find expmode_one_to_one he h1 h2,
      fun order hp => firstNameOf_of_perm expmode_one_to_one hp he out⟩
  · intro e he hm
    have hg : GetProperty cam "expmeteringmode" out s =
        (XError.Success,
          firstNameOf (cam.GetExposureMeteringMode s) out SupportedExposureMeteringModes) := rfl
    rw [hg, hm]
    exact ⟨by rw [firstNameOf_of_perm expmeteringmode_one_to_one (List.Perm.refl _) he],
      expmeteringmode_find_entry e he,
      fun n e2 h1 h2 => name_of_find expmeteringmode_one_to_one he h1 h2,
      fun order hp => firstNameOf_of_perm expmeteringmode_one_to_one hp he out⟩
  · intro e he hm
    have hg : GetProperty cam "effect" out s =
        (XError.Success, firstNameOf (cam.GetImageEffect s) out SupportedImageEffects) := rfl
    rw [hg, hm]
    exact ⟨by rw [firstNameOf_of_perm effect_one_to_one (List.Perm.refl _) he],
      effect_find_entry e he, fun n e2 h1 h2 => name_of_find effect_one_to_one he h1 h2,
      fun order hp => firstNameOf_of_perm effect_one_to_one hp he out⟩

theorem mode_property_reads_back_its_name_witness :
    GetProperty storingCamera "awb" "" { initialSettings with whiteBalanceMode := AwbMode.Shade } =
        (XError.Success, "Shade") ∧
      GetProperty storingCamera "effect" "junk"
          { initialSettings with imageEffect := ImageEffect.Cartoon } =
        (XError.Success, "Cartoon") :=
  ⟨((mode_property_reads_back_its_name storingCamera ""
      { initialSettings with whiteBalanceMode := AwbMode.Shade }).1
      ("Shade", AwbMode.Shade) (by decide) rfl).1,
    ((mode_property_reads_back_its_name storingCamera "junk"
      { initialSettings with imageEffect := ImageEffect.Cartoon }).2.2.2
      ("Cartoon", ImageEffect.Cartoon) (by decide) rfl).1⟩

/-! ## A device value that no table entry names -/

/-- Claim C12, as stated, fails: with a white-balance value that no table entry names and an
output string holding "junk" before the call, `GetProperty` returns `Success` and the output
string still holds "junk", not the empty string. -/
theorem unmatched_mode_keeps_the_prior_output :
    AwbMode.unlisted 0 ∉ SupportedAwbModes.map Prod.snd ∧
      GetProperty storingCamera "awb" "junk"
          { initialSettings with whiteBalanceMode := AwbMode.unlisted 0 } =
        (XError.Success, "junk") ∧
      (GetProperty storingCamera "awb" "junk"
          { initialSettings with whiteBalanceMode := AwbMode.unlisted 0 }).2 ≠ "" := by
  refine ⟨by decide, by decide, by decide⟩

/-- Claim C12, amended. For `GetProperty` on a mode property (awb, expmode, expmeteringmode,
effect) in a device state whose current mode value has no entry in the property's table, the
result is `Success` and the output string holds what it held before the call; so the output
value is the empty string when the output string was empty before the call. -/
theorem unmatched_mode_returns_success_and_the_prior_output (cam : XRaspiCamera σ)
    (out : String) (s : σ) :
    (cam.GetWhiteBalanceMode s ∉ SupportedAwbModes.map Prod.snd →
        GetProperty cam "awb" out s = (XError.Success, out) ∧
        GetProperty cam "awb" "" s = (XError.Success, "")) ∧
      (cam.GetExposureMode s ∉ SupportedExposureModes.map Prod.snd →
        GetProperty cam "expmode" out s = (XError.Success, out) ∧
        GetProperty cam "expmode" "" s = (XError.Success, "")) ∧
      (cam.GetExposureMeteringMode s ∉ SupportedExposureMeteringModes.map Prod.snd →
        GetProperty cam "expmeteringmode" out s = (XError.Success, out) ∧
        GetProperty cam "expmeteringmode" "" s = (XError.Success, "")) ∧
      (cam.GetImageEffect s ∉ SupportedImageEffects.map Prod.snd →
        GetProperty cam "effect" out s = (XError.Success, out) ∧
        GetProperty cam "effect" "" s = (XError.Success, "")) := by
  have hawb : ∀ v, GetProperty cam "awb" v s =
      (XError.Success, firstNameOf (cam.GetWhiteBalanceMode s) v SupportedAwbModes) :=
    fun _ => rfl
  have hexp : ∀ v, GetProperty cam "expmode" v s =
      (XError.Success, firstNameOf (cam.GetExposureMode s) v SupportedExposureModes) :=
    fun _ => rfl
  have hmet : ∀ v, GetProperty cam "expmeteringmode" v s =
      (XError.Success,
        firstNameOf (cam.GetExposureMeteringMode s) v SupportedExposureMeteringModes) :=
    fun _ => rfl
  have heff : ∀ v, GetProperty cam "effect" v s =
      (XError.Success, firstNameOf (cam.GetImageEffect s) v SupportedImageEffects) :=
    fun _ => rfl
  refine ⟨fun h => ?_, fun h => ?_, fun h => ?_, fun h => ?_⟩
  · rw [hawb, hawb, firstNameOf_of_not_mem _ _ _ h, firstNameOf_of_not_mem _ _ _ h]
    exact ⟨rfl, rfl⟩
  · rw [hexp, hexp, firstNameOf_of_not_mem _ _ _ h, firstNameOf_of_not_mem _ _ _ h]
    exact ⟨rfl, rfl⟩
  · rw [hmet, hmet, firstNameOf_of_not_mem _ _ _ h, firstNameOf_of_not_mem _ _ _ h]
    exact ⟨rfl, rfl⟩
  · rw [heff, heff, firstNameOf_of_not_mem _ _ _ h, firstNameOf_of_not_mem _ _ _ h]
    exact ⟨rfl, rfl⟩

theorem unmatched_mode_returns_success_and_the_prior_output_witness :
    GetProperty storingCamera "expmode" "before"
        { initialSettings with exposureMode := ExposureMode.unlisted 7 } =
        (XError.Success, "before") ∧
      GetProperty storingCamera "expmode" ""
        { initialSettings with exposureMode := ExposureMode.unlisted 7 } =
        (XError.Success, "") :=
  (unmatched_mode_returns_success_and_the_prior_output storingCamera "before"
    { initialSettings with exposureMode := ExposureMode.unlisted 7 }).2.1 (by decide)

/-! ## What `GetProperty` leaves in the output string -/

theorem GetProperty_of_rendering (cam : XRaspiCamera σ) (out other : String) (s : σ) :
    (∀ name ∈ ["hflip", "vflip", "videostabilisation", "sharpness", "contrast", "brightness",
        "saturation"], GetProperty cam name out s = GetProperty cam name other s) ∧
      (cam.GetWhiteBalanceMode s ∈ SupportedAwbModes.map Prod.snd →
        GetProperty cam "awb" out s = GetProperty cam "awb" other s) ∧
      (cam.GetExposureMode s ∈ SupportedExposureModes.map Prod.snd →
        GetProperty cam "expmode" out s = GetProperty cam "expmode" other s) ∧
      (cam.GetExposureMeteringMode s ∈ SupportedExposureMeteringModes.map Prod.snd →
        GetProperty cam "expmeteringmode" out s = GetProperty cam "expmeteringmode" other s) ∧
      (cam.GetImageEffect s ∈ SupportedImageEffects.map Prod.snd →
        GetProperty cam "effect" out s = GetProperty cam "effect" other s) := by
  refine ⟨?_, fun h => ?_, fun h => ?_, fun h => ?_, fun h => ?_⟩
  · intro name hn
    simp only [List.mem_cons, List.mem_singleton, List.not_mem_nil, or_false] at hn
    rcases hn with rfl | rfl | rfl | rfl | rfl | rfl | rfl <;> rfl
  · show (XError.Success, firstNameOf _ out SupportedAwbModes) =
      (XError.Success, firstNameOf _ other SupportedAwbModes)
    rw [firstNameOf_of_mem _ out other _ h]
  · show (XError.Success, firstNameOf _ out SupportedExposureModes) =
      (XError.Success, firstNameOf _ other SupportedExposureModes)
    rw [firstNameOf_of_mem _ out other _ h]
  · show (XError.Success, firstNameOf _ out SupportedExposureMeteringModes) =
      (XError.Success, firstNameOf _ other SupportedExposureMeteringModes)
    rw [firstNameOf_of_mem _ out other _ h]
  · show (XError.Success, firstNameOf _ out SupportedImageEffects) =
      (XError.Success, firstNameOf _ other SupportedImageEffects)
    rw [firstNameOf_of_mem _ out other _ h]

/-- Claim C16. `GetProperty` writes its output string only when the name is recognized and a
rendering exists: for every unrecognized name, and for every mode property whose device value
matches no table entry, the output string after the call is the very string the caller passed
in. In every other case the string after the call does not depend on what was passed in. -/
theorem output_string_is_kept_without_a_rendering (cam : XRaspiCamera σ) (name out other : String)
    (s : σ) :
    (name ∉ ["hflip", "vflip", "videostabilisation", "sharpness", "contrast", "brightness",
          "saturation", "awb", "expmode", "expmeteringmode", "effect"] →
        (GetProperty cam name out s).2 = out) ∧
      (cam.GetWhiteBalanceMode s ∉ SupportedAwbModes.map Prod.snd →
        (GetProperty cam "awb" out s).2 = out) ∧
      (cam.GetExposureMode s ∉ SupportedExposureModes.map Prod.snd →
        (GetProperty cam "expmode" out s).2 = out) ∧
      (cam.GetExposureMeteringMode s ∉ SupportedExposureMeteringModes.map Prod.snd →
        (GetProperty cam "expmeteringmode" out s).2 = out) ∧
      (cam.GetImageEffect s ∉ SupportedImageEffects.map Prod.snd →
        (GetProperty cam "effect" out s).2 = out) ∧
      (∀ n ∈ ["hflip", "vflip", "videostabilisation", "sharpness", "contrast", "brightness",
          "saturation"], (GetProperty cam n out s).2 = (GetProperty cam n other s).2) ∧
      (cam.GetWhiteBalanceMode s ∈ SupportedAwbModes.map Prod.snd →
        (GetProperty cam "awb" out s).2 = (GetProperty cam "awb" other s).2) ∧
      (cam.GetExposureMode s ∈ SupportedExposureModes.map Prod.snd →
        (GetProperty cam "expmode" out s).2 = (GetProperty cam "expmode" other s).2) ∧
      (cam.GetExposureMeteringMode s ∈ SupportedExposureMeteringModes.map Prod.snd →
        (GetProperty cam "expmeteringmode" out s).2 =
          (GetProperty cam "expmeteringmode" other s).2) ∧
      (cam.GetImageEffect s ∈ SupportedImageEffects.map Prod.snd →
        (GetProperty cam "effect" out s).2 = (GetProperty cam "effect" other s).2) := by
  obtain ⟨r1, r2, r3, r4, r5⟩ := GetProperty_of_rendering cam out other s
  refine ⟨fun h => ?_, fun h => ?_, fun h => ?_, fun h => ?_, fun h => ?_,
    fun n hn => by rw [r1 n hn], fun h => by rw [r2 h], fun h => by rw [r3 h],
    fun h => by rw [r4 h], fun h => by rw [r5 h]⟩
  · rw [@GetProperty_of_not_recognized σ cam name h out s]
  · exact firstNameOf_of_not_mem _ _ _ h
  · exact firstNameOf_of_not_mem _ _ _ h
  · exact firstNameOf_of_not_mem _ _ _ h
  · exact firstNameOf_of_not_mem _ _ _ h

theorem output_string_is_kept_without_a_rendering_witness :
    (GetProperty storingCamera "colour" "kept" initialSettings).2 = "kept" ∧
      (GetProperty storingCamera "effect" "kept"
        { initialSettings with imageEffect := ImageEffect.unlisted 3 }).2 = "kept" ∧
      (GetProperty storingCamera "awb" "kept" initialSettings).2 =
        (GetProperty storingCamera "awb" "" initialSettings).2 :=
  ⟨(output_string_is_kept_without_a_rendering storingCamera "colour" "kept" "" initialSettings).1
      (by decide),
    (output_string_is_kept_without_a_rendering storingCamera "effect" "kept" ""
      { initialSettings with imageEffect := ImageEffect.unlisted 3 }).2.2.2.2.1 (by decide),
    (output_string_is_kept_without_a_rendering storingCamera "awb" "kept" ""
      initialSettings).2.2.2.2.2.2.1 (by decide)⟩

/-! ## Every recognized property can be read -/

/-- Claim C15. `GetProperty` returns `Success` for each of the eleven recognized names in every
device state and for every prior content of the output string, so no device getter result makes
it fail; hence the mapping `GetAllProperties` returns always has exactly eleven entries, one for
each recognized name. -/
theorem every_recognized_property_is_read (cam : XRaspiCamera σ) (s : σ) :
    (∀ name ∈ ["hflip", "vflip", "videostabilisation", "sharpness", "contrast", "brightness",
          "saturation", "awb", "expmode", "expmeteringmode", "effect"],
        ∀ out, (GetProperty cam name out s).1 = XError.Success) ∧
      (GetAllProperties cam s).length = 11 ∧
      ((GetAllProperties cam s).map Prod.fst).Nodup ∧
      (∀ name, name ∈ (GetAllProperties cam s).map Prod.fst ↔
        name ∈ ["hflip", "vflip", "videostabilisation", "sharpness", "contrast", "brightness",
          "saturation", "awb", "expmode", "expmeteringmode", "effect"]) := by
  refine ⟨fun name hn out => GetProperty_of_recognized cam hn out s, ?_, ?_, ?_⟩
  · rw [GetAllProperties_eq]; rfl
  · rw [GetAllProperties_keys]; decide
  · intro name
    rw [GetAllProperties_keys]
    exact ⟨fun h => (by decide : ∀ x ∈ ["awb", "brightness", "contrast", "effect",
        "expmeteringmode", "expmode", "hflip", "saturation", "sharpness", "vflip",
        "videostabilisation"], x ∈ ["hflip", "vflip", "videostabilisation", "sharpness",
        "contrast", "brightness", "saturation", "awb", "expmode", "expmeteringmode",
        "effect"]) name h,
      fun h => (by decide : ∀ x ∈ ["hflip", "vflip", "videostabilisation", "sharpness",
        "contrast", "brightness", "saturation", "awb", "expmode", "expmeteringmode",
        "effect"], x ∈ ["awb", "brightness", "contrast", "effect",
        "expmeteringmode", "expmode", "hflip", "saturation", "sharpness", "vflip",
        "videostabilisation"]) name h⟩

/-! ## Printing an integer -/

theorem digitChar_spec {d : Nat} (h : d < 10) :
    isdigit (Nat.digitChar d) = true ∧ (Nat.digitChar d).toNat - 48 = d ∧
      (Nat.digitChar d = '0' → d = 0) ∧ Nat.digitChar d ≠ '-' ∧ Nat.digitChar d ≠ '+' := by
  interval_cases d <;> decide

theorem toDigitsCore_eq_digits (fuel : Nat) : ∀ (n : Nat) (ds : List Char), 0 < n → n < fuel →
    Nat.toDigitsCore 10 fuel n ds = (Nat.digits 10 n).reverse.map Nat.digitChar ++ ds := by
  induction fuel with
  | zero => intro n ds _ hf; exact absurd hf (Nat.not_lt_zero n)
  | succ fuel ih =>
    intro n ds hn hf
    rw [Nat.digits_def' (by decide) hn]
    simp only [Nat.toDigitsCore]
    by_cases h0 : n / 10 = 0
    · simp [h0]
    · have hpos : 0 < n / 10 := Nat.pos_of_ne_zero h0
      have hlt : n / 10 < fuel := by omega
      rw [if_neg h0, ih (n / 10) _ hpos hlt]
      simp

theorem toDigits_eq (n : Nat) :
    Nat.toDigits 10 n =
      if n = 0 then ['0'] else (Nat.digits 10 n).reverse.map Nat.digitChar := by
  by_cases h : n = 0
  · subst h; rfl
  · rw [if_neg h]
    unfold Nat.toDigits
    rw [toDigitsCore_eq_digits (n + 1) n [] (Nat.pos_of_ne_zero h) (Nat.lt_succ_self n)]
    simp

theorem sprintf_d_data (n : Int) : (sprintf_d n).data = decimalText n := by
  unfold sprintf_d decimalText
  have hrepr : ∀ m : Nat, (Nat.repr m).data = Nat.toDigits 10 m := fun _ => rfl
  by_cases hneg : n < 0
  · have h0 : n ≠ 0 := by omega
    have h1 : n.natAbs ≠ 0 := by omega
    rw [if_pos hneg, if_pos hneg, if_neg h0, String.data_append, hrepr, toDigits_eq, if_neg h1]
  · rw [if_neg hneg, if_neg hneg, hrepr, toDigits_eq]
    by_cases h0 : n = 0
    · subst h0; rfl
    · have h1 : n.natAbs ≠ 0 := by omega
      rw [if_neg h0, if_neg h1]; rfl

theorem toDigits_isdigit (m : Nat) : ∀ c ∈ Nat.toDigits 10 m, isdigit c = true := by
  intro c hc
  rw [toDigits_eq] at hc
  by_cases h : m = 0
  · rw [if_pos h] at hc
    rcases List.mem_singleton.1 hc with rfl
    decide
  · rw [if_neg h] at hc
    obtain ⟨d, hd, rfl⟩ := List.mem_map.1 hc
    exact (digitChar_spec (Nat.digits_lt_base (by decide) (List.mem_reverse.1 hd))).1

theorem toDigits_ne_nil (m : Nat) : Nat.toDigits 10 m ≠ [] := by
  rw [toDigits_eq]
  by_cases h : m = 0
  · rw [if_pos h]; simp
  · rw [if_neg h]
    simpa using (Nat.digits_ne_nil_iff_ne_zero.2 h)

theorem toDigits_value (m : Nat) :
    Nat.ofDigits 10 ((Nat.toDigits 10 m).reverse.map fun d => d.toNat - 48) = m := by
  rw [toDigits_eq]
  by_cases h : m = 0
  · subst h; rfl
  · rw [if_neg h, ← List.map_reverse, List.reverse_reverse, List.map_map]
    have hmap : (Nat.digits 10 m).map ((fun d : Char => d.toNat - 48) ∘ Nat.digitChar) =
        Nat.digits 10 m := by
      conv_rhs => rw [← List.map_id (Nat.digits 10 m)]
      apply List.map_congr_left
      intro d hd
      exact (digitChar_spec (Nat.digits_lt_base (by decide) hd)).2.1
    rw [hmap, Nat.ofDigits_digits]

theorem toDigits_leading_zero (m : Nat) (rest : List Char)
    (h : Nat.toDigits 10 m = '0' :: rest) : m = 0 ∧ rest = [] := by
  by_cases h0 : m = 0
  · subst h0
    have h1 : Nat.toDigits 10 0 = ['0'] := rfl
    rw [h1] at h
    exact ⟨rfl, by simpa using h.symm⟩
  · exfalso
    rw [toDigits_eq, if_neg h0] at h
    have hne : Nat.digits 10 m ≠ [] := Nat.digits_ne_nil_iff_ne_zero.2 h0
    have hlast := Nat.getLast_digit_ne_zero 10 h0
    have hmem : (Nat.digits 10 m).getLast hne ∈ Nat.digits 10 m := List.getLast_mem hne
    have hlt := Nat.digits_lt_base (by decide : 1 < 10) hmem
    have hsplit := List.dropLast_append_getLast hne
    rw [← hsplit] at h
    simp only [List.reverse_append, List.reverse_cons, List.reverse_nil, List.nil_append,
      List.singleton_append, List.map_cons, List.cons.injEq] at h
    exact hlast ((digitChar_spec hlt).2.2.1 h.1)
theorem decimalText_eq (n : Int) :
    decimalText n = (if n < 0 then ['-'] else []) ++ Nat.toDigits 10 n.natAbs := by
  unfold decimalText
  rw [toDigits_eq]
  by_cases h : n = 0
  · subst h; rfl
  · have h1 : n.natAbs ≠ 0 := by omega
    rw [if_neg h, if_neg h1]

theorem sprintf_d_spec (n : Int) :
    (sprintf_d n).data = decimalText n ∧
      isIntegerText (sprintf_d n) = true ∧ integerTextValue (sprintf_d n) = n ∧
      ((sprintf_d n).data.head? = some '-' ↔ n < 0) ∧
      '+' ∉ (sprintf_d n).data ∧
      (∀ rest, (sprintf_d n).data = '0' :: rest → rest = [] ∧ n = 0) ∧
      (∀ rest, (sprintf_d n).data ≠ '-' :: '0' :: rest) := by
  have hdata : (sprintf_d n).data = (if n < 0 then ['-'] else []) ++ Nat.toDigits 10 n.natAbs := by
    rw [sprintf_d_data, decimalText_eq]
  have hdig := toDigits_isdigit n.natAbs
  have hval := toDigits_value n.natAbs
  have hplus : ∀ c, isdigit c = true → c ≠ '+' ∧ c ≠ '-' := by
    intro c hc
    constructor <;> rintro rfl <;> exact absurd hc (by decide)
  refine ⟨sprintf_d_data n, ?_⟩
  unfold isIntegerText integerTextValue
  rw [hdata]
  by_cases hneg : n < 0
  · simp only [if_pos hneg, List.singleton_append]
    have hne : (Nat.toDigits 10 n.natAbs).isEmpty = false := by
      cases h : Nat.toDigits 10 n.natAbs with
      | nil => exact absurd h (toDigits_ne_nil _)
      | cons a l => rfl
    have h45 : ('-' : Char).toNat = 45 := rfl
    refine ⟨?_, ?_, ?_, ?_, ?_, ?_⟩
    · simp only [h45, true_or, if_true, hne, Bool.not_false, Bool.true_and, List.all_eq_true]
      exact hdig
    · simp only [h45, if_true, hval]
      omega
    · simp [hneg]
    · intro h
      rcases List.mem_cons.1 h with h1 | h1
      · exact absurd h1 (by decide)
      · exact (hplus _ (hdig _ h1)).1 rfl
    · intro rest h
      exact absurd (List.cons.inj h).1 (by decide)
    · intro rest h
      have h2 := (List.cons.inj h).2
      have := (toDigits_leading_zero _ _ h2).1
      omega
  · simp only [if_neg hneg, List.nil_append]
    rcases hd : Nat.toDigits 10 n.natAbs with _ | ⟨c, rest⟩
    · exact absurd hd (toDigits_ne_nil _)
    · rw [hd] at hdig hval
      have hc : isdigit c = true := hdig c (List.mem_cons_self _ _)
      have hns : ¬ (c.toNat = 45 ∨ c.toNat = 43) := by
        intro hs; rw [isdigit_of_sign hs] at hc; exact Bool.false_ne_true hc
      have h1 : ¬ c.toNat = 45 := fun h => hns (Or.inl h)
      have h2 : ¬ c.toNat = 43 := fun h => hns (Or.inr h)
      refine ⟨?_, ?_, ?_, ?_, ?_, ?_⟩
      · simp only [hns, if_false, List.isEmpty_cons, Bool.not_false, Bool.true_and,
          List.all_eq_true]
        exact hdig
      · simp only [h1, h2, if_false, hval]
        omega
      · simp only [List.head?_cons, Option.some.injEq]
        exact iff_of_false (hplus c hc).2 hneg
      · intro h
        exact (hplus _ (hdig _ h)).1 rfl
      · intro r h
        have h3 := (List.cons.inj h).1
        subst h3
        have := toDigits_leading_zero _ _ hd
        refine ⟨(List.cons.inj h).2 ▸ this.2, ?_⟩
        omega
      · intro r h
        exact (hplus c hc).2 (List.cons.inj h).1
/-- Claim C13. In every device state and whatever the output string held before: `GetProperty`
on a boolean property (hflip, vflip, videostabilisation) returns `Success` with "1" when the
device getter returns true and "0" when it returns false; on an integer property (sharpness,
contrast, brightness, saturation) it returns `Success` with the base-10 decimal text of the
device's integer: the text denotes that integer, starts with a minus sign exactly when the
integer is negative, holds no plus sign and has no leading zero. -/
theorem boolean_and_integer_properties_are_rendered (cam : XRaspiCamera σ) (out : String)
    (s : σ) :
    (∀ p ∈ [("hflip", cam.GetHorizontalFlip), ("vflip", cam.GetVerticalFlip),
          ("videostabilisation", cam.GetVideoStabilisation)],
        GetProperty cam p.1 out s = (XError.Success, if p.2 s = true then "1" else "0")) ∧
      (∀ p ∈ [("sharpness", cam.GetSharpness), ("contrast", cam.GetContrast),
          ("brightness", cam.GetBrightness), ("saturation", cam.GetSaturation)],
        ∃ text, GetProperty cam p.1 out s = (XError.Success, text) ∧
          text.data = decimalText (p.2 s) ∧
          isIntegerText text = true ∧ integerTextValue text = p.2 s ∧
          (text.data.head? = some '-' ↔ p.2 s < 0) ∧
          '+' ∉ text.data ∧
          (∀ rest, text.data = '0' :: rest → rest = [] ∧ p.2 s = 0) ∧
          (∀ rest, text.data ≠ '-' :: '0' :: rest)) := by
  constructor
  · intro p hp
    simp only [List.mem_cons, List.mem_singleton, List.not_mem_nil, or_false] at hp
    rcases hp with rfl | rfl | rfl <;> rfl
  · intro p hp
    refine ⟨sprintf_d (p.2 s), ?_, sprintf_d_spec (p.2 s)⟩
    simp only [List.mem_cons, List.mem_singleton, List.not_mem_nil, or_false] at hp
    rcases hp with rfl | rfl | rfl | rfl <;> rfl

/-! ## What the scan of an integer property accepts -/

theorem dropWhile_takeWhile_of_imp {α : Type} (p q : α → Bool) (hpq : ∀ x, p x = true → q x = true)
    (l : List α) : (l.takeWhile q).dropWhile p = (l.dropWhile p).takeWhile q := by
  induction l with
  | nil => rfl
  | cons a l ih =>
    by_cases hp : p a = true
    · have hq := hpq a hp
      rw [List.takeWhile_cons_of_pos hq, List.dropWhile_cons_of_pos hp,
        List.dropWhile_cons_of_pos hp, ih]
    · rw [List.dropWhile_cons_of_neg hp]
      by_cases hq : q a = true
      · rw [List.takeWhile_cons_of_pos hq, List.dropWhile_cons_of_neg hp]
      · rw [List.takeWhile_cons_of_neg hq]; rfl

theorem takeWhile_takeWhile_of_imp {α : Type} (p q : α → Bool)
    (hpq : ∀ x, p x = true → q x = true) (l : List α) :
    (l.takeWhile q).takeWhile p = l.takeWhile p := by
  induction l with
  | nil => rfl
  | cons a l ih =>
    by_cases hq : q a = true
    · rw [List.takeWhile_cons_of_pos hq]
      by_cases hp : p a = true
      · rw [List.takeWhile_cons_of_pos hp, List.takeWhile_cons_of_pos hp, ih]
      · rw [List.takeWhile_cons_of_neg hp, List.takeWhile_cons_of_neg hp]
    · have hp : ¬ p a = true := fun h => hq (hpq a h)
      rw [List.takeWhile_cons_of_neg hq, List.takeWhile_cons_of_neg hp]; rfl

theorem isspace_not_nul (c : Char) (h : isspace c = true) : (c.toNat != 0) = true := by
  simp only [isspace, Bool.or_eq_true, beq_iff_eq, Bool.and_eq_true, decide_eq_true_eq] at h
  simp only [bne_iff_ne, ne_eq]
  omega

theorem sscanf_d_of_nil {text : List Char} (h : text.dropWhile isspace = []) :
    sscanf_d text = ⟨-1, 0⟩ := by
  unfold sscanf_d; rw [h]

theorem sscanf_d_of_cons {text : List Char} {c : Char} {rest : List Char}
    (h : text.dropWhile isspace = c :: rest) :
    sscanf_d text =
      if ((if c.toNat = 45 ∨ c.toNat = 43 then rest else c :: rest).takeWhile isdigit) = [] then
        ⟨0, 0⟩
      else ⟨1, storeInt (if c.toNat = 45
        then -((Nat.ofDigits 10 (((if c.toNat = 45 ∨ c.toNat = 43 then rest
          else c :: rest).takeWhile isdigit).reverse.map fun d => d.toNat - 48) : Nat) : Int)
        else ((Nat.ofDigits 10 (((if c.toNat = 45 ∨ c.toNat = 43 then rest
          else c :: rest).takeWhile isdigit).reverse.map fun d => d.toNat - 48) : Nat) : Int))⟩ := by
  unfold sscanf_d; rw [h]
  by_cases hs : c.toNat = 45 ∨ c.toNat = 43
  · have hs2 : (c.toNat == 45 || c.toNat == 43) = true := by simpa using hs
    simp only [hs2, hs, if_true, digitsValue_eq, zero_mul, zero_add]
    by_cases hd : rest.takeWhile isdigit = []
    · simp [hd]
    · have he : (rest.takeWhile isdigit).isEmpty = false := by
        simpa [List.isEmpty_iff] using hd
      by_cases h45 : c.toNat = 45 <;> simp [hd, he, h45]
  · have hs2 : (c.toNat == 45 || c.toNat == 43) = false := by simpa using hs
    have h45 : ¬ c.toNat = 45 := fun h => hs (Or.inl h)
    have h45b : (c.toNat == 45) = false := by simpa using h45
    simp only [hs2, hs, if_false, Bool.false_eq_true, digitsValue_eq, zero_mul, zero_add, h45,
      h45b]
    by_cases hd : (c :: rest).takeWhile isdigit = []
    · simp [hd]
    · have he : ((c :: rest).takeWhile isdigit).isEmpty = false := by
        simpa [List.isEmpty_iff] using hd
      simp [hd, he]

theorem leadingInteger_of_nil {value : String} (h : value.data.dropWhile isspace = []) :
    leadingInteger value = none := by
  unfold leadingInteger; rw [h]

theorem leadingInteger_of_cons {value : String} {c : Char} {rest : List Char}
    (h : value.data.dropWhile isspace = c :: rest) :
    leadingInteger value =
      if ((if c.toNat = 45 ∨ c.toNat = 43 then rest else c :: rest).takeWhile isdigit) = [] then
        none
      else if c.toNat = 45 then
        some (-((Nat.ofDigits 10 (((if c.toNat = 45 ∨ c.toNat = 43 then rest
          else c :: rest).takeWhile isdigit).reverse.map fun d => d.toNat - 48) : Nat) : Int))
      else some ((Nat.ofDigits 10 (((if c.toNat = 45 ∨ c.toNat = 43 then rest
          else c :: rest).takeWhile isdigit).reverse.map fun d => d.toNat - 48) : Nat) : Int) := by
  unfold leadingInteger; rw [h]

/-- The scan of `value.c_str( )`, told on the characters of `value`: the count is 1 exactly
when the value starts with an integer, and that integer is what gets stored. -/
theorem sscanf_d_c_str (value : String) :
    (leadingInteger value = none ∧ (sscanf_d (c_str value)).scannedCount ≠ 1) ∨
      ∃ n, leadingInteger value = some n ∧ sscanf_d (c_str value) = ⟨1, storeInt n⟩ := by
  have hdrop : (c_str value).dropWhile isspace =
      (value.data.dropWhile isspace).takeWhile (fun c => c.toNat != 0) :=
    dropWhile_takeWhile_of_imp isspace _ isspace_not_nul value.data
  have htake : ∀ l : List Char,
      (l.takeWhile (fun c => c.toNat != 0)).takeWhile isdigit = l.takeWhile isdigit :=
    takeWhile_takeWhile_of_imp isdigit _ (fun c h => isdigit_not_nul h)
  rcases hl : value.data.dropWhile isspace with _ | ⟨c, rest⟩
  · rw [hl] at hdrop
    rw [sscanf_d_of_nil hdrop, leadingInteger_of_nil hl]
    exact Or.inl ⟨rfl, by decide⟩
  · rw [hl] at hdrop
    rw [leadingInteger_of_cons hl]
    by_cases hq : (c.toNat != 0) = true
    · rw [List.takeWhile_cons_of_pos (p := fun c : Char => c.toNat != 0) hq] at hdrop
      rw [sscanf_d_of_cons hdrop]
      have hbody : (if c.toNat = 45 ∨ c.toNat = 43 then rest.takeWhile (fun c => c.toNat != 0)
          else c :: rest.takeWhile (fun c => c.toNat != 0)).takeWhile isdigit =
          (if c.toNat = 45 ∨ c.toNat = 43 then rest else c :: rest).takeWhile isdigit := by
        by_cases hs : c.toNat = 45 ∨ c.toNat = 43
        · rw [if_pos hs, if_pos hs, htake]
        · rw [if_neg hs, if_neg hs, ← htake (c :: rest),
            List.takeWhile_cons_of_pos (p := fun c : Char => c.toNat != 0) hq]
      rw [hbody]
      by_cases hd : (if c.toNat = 45 ∨ c.toNat = 43 then rest else c :: rest).takeWhile isdigit = []
      · rw [if_pos hd, if_pos hd]
        exact Or.inl ⟨rfl, by decide⟩
      · rw [if_neg hd, if_neg hd]
        by_cases h45 : c.toNat = 45
        · rw [if_pos h45, if_pos h45]; exact Or.inr ⟨_, rfl, rfl⟩
        · rw [if_neg h45, if_neg h45]; exact Or.inr ⟨_, rfl, rfl⟩
    · rw [List.takeWhile_cons_of_neg (p := fun c : Char => c.toNat != 0) hq] at hdrop
      have hc0 : c.toNat = 0 := by simpa using hq
      have hs : ¬ (c.toNat = 45 ∨ c.toNat = 43) := by omega
      have hd : isdigit c = false := by simp [isdigit, hc0]
      have hnil : (c :: rest).takeWhile isdigit = [] :=
        List.takeWhile_cons_of_neg (by simp [hd])
      rw [sscanf_d_of_nil hdrop, if_neg hs, hnil, if_pos rfl]
      exact Or.inl ⟨rfl, by decide⟩
theorem SetProperty_of_leadingInteger (cam : XRaspiCamera σ) {p : String × (Int → SetterCall)}
    (hp : p ∈ integerProperties) {value : String} {n : Int}
    (hn : leadingInteger value = some n) (hlo : INT_MIN ≤ n) (hhi : n ≤ INT_MAX) (s : σ) :
    setterCalls cam p.1 value s = [p.2 n] ∧
      SetProperty cam p.1 value s =
        (if ((p.2 n).run cam s).1 = true then XError.Success else XError.Failed,
          ((p.2 n).run cam s).2) := by
  have hscan : sscanf_d (c_str value) = ⟨1, n⟩ := by
    rcases sscanf_d_c_str value with ⟨hnone, _⟩ | ⟨m, hsome, hscan⟩
    · rw [hnone] at hn; cases hn
    · rw [hsome] at hn
      cases hn
      rw [hscan, storeInt_of_fits hlo hhi]
  have hpc : plannedCall p.1 value (cam.GetHorizontalFlip s) (cam.GetVerticalFlip s) =
      .ok (p.2 n) := by
    rw [plannedCall_integer hp, hscan]; rfl
  exact ⟨(SetProperty_of_ok cam hpc).2, (SetProperty_of_ok cam hpc).1⟩

/-- Claim C14. For each integer property (sharpness, contrast, brightness, saturation) and every
value string, `SetProperty` returns `InvalidPropertyValue` exactly when the value, after leading
white space, does not begin with an optional `+` or `-` sign followed by at least one decimal
digit; otherwise it calls the property's setter once, with the integer denoted by that longest
sign-and-digits start of the value when it fits in `int`, and ignores what follows: " 42",
"+42", "42abc" and "42.9" all set 42. -/
theorem integer_property_takes_the_leading_integer (cam : XRaspiCamera σ)
    (p : String × (Int → SetterCall)) (hp : p ∈ integerProperties) (value : String) (s : σ) :
    ((SetProperty cam p.1 value s).1 = XError.InvalidPropertyValue ↔
        leadingInteger value = none) ∧
      (leadingInteger value ≠ none → ∃ n, setterCalls cam p.1 value s = [p.2 n]) ∧
      (∀ n, leadingInteger value = some n → INT_MIN ≤ n → n ≤ INT_MAX →
        setterCalls cam p.1 value s = [p.2 n] ∧
        SetProperty cam p.1 value s =
          (if ((p.2 n).run cam s).1 = true then XError.Success else XError.Failed,
            ((p.2 n).run cam s).2)) ∧
      (∀ v ∈ [" 42", "+42", "42abc", "42.9"], setterCalls cam p.1 v s = [p.2 42]) := by
  refine ⟨?_, ?_, fun n hn hlo hhi => SetProperty_of_leadingInteger cam hp hn hlo hhi s, ?_⟩
  · rcases sscanf_d_c_str value with ⟨hnone, hcount⟩ | ⟨n, hsome, hscan⟩
    · have hpc : plannedCall p.1 value (cam.GetHorizontalFlip s) (cam.GetVerticalFlip s) =
          .error XError.InvalidPropertyValue := by
        rw [plannedCall_integer hp]; unfold integerCall; rw [if_neg hcount]
      rw [(SetProperty_of_error cam hpc).1]
      exact iff_of_true rfl hnone
    · have hpc : plannedCall p.1 value (cam.GetHorizontalFlip s) (cam.GetVerticalFlip s) =
          .ok (p.2 (storeInt n)) := by
        rw [plannedCall_integer hp, hscan]; rfl
      rw [SetProperty_eq_outcome, hpc, hsome]
      exact iff_of_false (outcome_ok_ne_invalid cam s _) (by simp)
  · intro hne
    rcases sscanf_d_c_str value with ⟨hnone, _⟩ | ⟨n, hsome, hscan⟩
    · exact absurd hnone hne
    · have hpc : plannedCall p.1 value (cam.GetHorizontalFlip s) (cam.GetVerticalFlip s) =
          .ok (p.2 (storeInt n)) := by
        rw [plannedCall_integer hp, hscan]; rfl
      exact ⟨_, (SetProperty_of_ok cam hpc).2⟩
  · intro v hv
    have h42 : leadingInteger v = some 42 := by
      simp only [List.mem_cons, List.mem_singleton, List.not_mem_nil, or_false] at hv
      rcases hv with rfl | rfl | rfl | rfl <;> decide
    exact (SetProperty_of_leadingInteger cam hp h42 (by decide) (by decide) s).1

theorem integer_property_takes_the_leading_integer_witness :
    (SetProperty storingCamera "contrast" "  -7 units" initialSettings =
        (XError.Success, { initialSettings with contrast := -7 }) ∧
      setterCalls storingCamera "contrast" "  -7 units" initialSettings =
        [SetterCall.Contrast (-7)]) ∧
    ((SetProperty storingCamera "contrast" "- 7" initialSettings).1 =
      XError.InvalidPropertyValue) :=
  ⟨⟨((integer_property_takes_the_leading_integer storingCamera ("contrast", SetterCall.Contrast)
        (by simp [integerProperties]) "  -7 units" initialSettings).2.2.1 (-7) (by decide)
        (by decide) (by decide)).2,
      ((integer_property_takes_the_leading_integer storingCamera ("contrast", SetterCall.Contrast)
        (by simp [integerProperties]) "  -7 units" initialSettings).2.2.1 (-7) (by decide)
        (by decide) (by decide)).1⟩,
    (integer_property_takes_the_leading_integer storingCamera ("contrast", SetterCall.Contrast)
      (by simp [integerProperties]) "- 7" initialSettings).1.2 (by decide)⟩

/-! ## Validation, then one setter call -/

theorem plannedCall_integer_spec {p : String × (Int → SetterCall)} (hp : p ∈ integerProperties)
    (value : String) (hflip vflip : Bool) :
    (passesValidation p.1 value = false ∧
        plannedCall p.1 value hflip vflip = .error XError.InvalidPropertyValue) ∨
      (passesValidation p.1 value = true ∧
        ∃ n, plannedCall p.1 value hflip vflip = .ok (p.2 n)) := by
  have hv : passesValidation p.1 value = (leadingInteger value).isSome := by
    rcases mem_integerProperties hp with rfl | rfl | rfl | rfl <;> rfl
  rw [hv, plannedCall_integer hp]
  unfold integerCall
  rcases sscanf_d_c_str value with ⟨hnone, hcount⟩ | ⟨n, hsome, hscan⟩
  · rw [hnone, if_neg hcount]
    exact Or.inl ⟨rfl, rfl⟩
  · rw [hsome, hscan, if_pos rfl]
    exact Or.inr ⟨rfl, _, rfl⟩

theorem modeCall_spec {β : Type} (f : β → SetterCall) (value : String)
    (table : List (String × β)) (names : List String)
    (hkeys : value ∈ table.map Prod.fst ↔ value ∈ names) :
    (decide (value ∈ names) = false ∧
        modeCall f (StdMap.find value table) = .error XError.InvalidPropertyValue) ∨
      (decide (value ∈ names) = true ∧
        ∃ e, modeCall f (StdMap.find value table) = .ok (f e)) := by
  rcases hf : StdMap.find value table with _ | e
  · have hnot : value ∉ names := fun h =>
      (StdMap.find_eq_none_iff value table).1 hf (hkeys.2 h)
    exact Or.inl ⟨decide_eq_false hnot, rfl⟩
  · have hin : value ∈ names := by
      by_contra hnot
      have := (StdMap.find_eq_none_iff value table).2 (fun h => hnot (hkeys.1 h))
      rw [hf] at this; cases this
    exact Or.inr ⟨decide_eq_true hin, e.2, rfl⟩

/-- The decision of `SetProperty`, told with the validation of the specification: no call for
a name that is not recognized or a value that fails validation, otherwise one call of a setter
that serves the property. -/
theorem plannedCall_spec (name value : String) (hflip vflip : Bool) :
    (name ∉ recognizedNames ∧
        plannedCall name value hflip vflip = .error XError.UnknownProperty) ∨
      (name ∈ recognizedNames ∧ passesValidation name value = false ∧
        plannedCall name value hflip vflip = .error XError.InvalidPropertyValue) ∨
      (name ∈ recognizedNames ∧ passesValidation name value = true ∧
        ∃ call, plannedCall name value hflip vflip = .ok call ∧ call.serves name = true) := by
  by_cases hn : name ∈ recognizedNames
  · refine Or.inr ?_
    have hint : ∀ p : String × (Int → SetterCall), p ∈ integerProperties →
        (∀ n, (p.2 n).serves p.1 = true) → p.1 ∈ recognizedNames →
        (p.1 ∈ recognizedNames ∧ passesValidation p.1 value = false ∧
          plannedCall p.1 value hflip vflip = .error XError.InvalidPropertyValue) ∨
        (p.1 ∈ recognizedNames ∧ passesValidation p.1 value = true ∧
          ∃ call, plannedCall p.1 value hflip vflip = .ok call ∧ call.serves p.1 = true) := by
      intro p hp hserves hrec
      rcases plannedCall_integer_spec hp value hflip vflip with ⟨h1, h2⟩ | ⟨h1, n, h2⟩
      · exact Or.inl ⟨hrec, h1, h2⟩
      · exact Or.inr ⟨hrec, h1, _, h2, hserves n⟩
    rcases (recognized_iff name).1 hn with
      rfl | rfl | rfl | rfl | rfl | rfl | rfl | rfl | rfl | rfl | rfl
    · exact Or.inr ⟨hn, rfl, _, rfl, rfl⟩
    · exact Or.inr ⟨hn, rfl, _, rfl, rfl⟩
    · exact Or.inr ⟨hn, rfl, _, rfl, rfl⟩
    · exact hint ("sharpness", SetterCall.Sharpness) (by simp [integerProperties])
        (fun _ => rfl) hn
    · exact hint ("contrast", SetterCall.Contrast) (by simp [integerProperties])
        (fun _ => rfl) hn
    · exact hint ("brightness", SetterCall.Brightness) (by simp [integerProperties])
        (fun _ => rfl) hn
    · exact hint ("saturation", SetterCall.Saturation) (by simp [integerProperties])
        (fun _ => rfl) hn
    · have hv : passesValidation "awb" value = decide (value ∈ awbNames) := rfl
      rw [hv, plannedCall_awb]
      rcases modeCall_spec SetterCall.WhiteBalanceMode value _ _ (awb_keys value) with
        ⟨h1, h2⟩ | ⟨h1, e, h2⟩
      · exact Or.inl ⟨hn, h1, h2⟩
      · exact Or.inr ⟨hn, h1, _, h2, rfl⟩
    · have hv : passesValidation "expmode" value = decide (value ∈ expmodeNames) := rfl
      rw [hv, plannedCall_expmode]
      rcases modeCall_spec SetterCall.ExposureMode value _ _ (expmode_keys value) with
        ⟨h1, h2⟩ | ⟨h1, e, h2⟩
      · exact Or.inl ⟨hn, h1, h2⟩
      · exact Or.inr ⟨hn, h1, _, h2, rfl⟩
    · have hv : passesValidation "expmeteringmode" value =
          decide (value ∈ expmeteringmodeNames) := rfl
      rw [hv, plannedCall_expmeteringmode]
      rcases modeCall_spec SetterCall.ExposureMeteringMode value _ _
        (expmeteringmode_keys value) with ⟨h1, h2⟩ | ⟨h1, e, h2⟩
      · exact Or.inl ⟨hn, h1, h2⟩
      · exact Or.inr ⟨hn, h1, _, h2, rfl⟩
    · have hv : passesValidation "effect" value = decide (value ∈ effectNames) := rfl
      rw [hv, plannedCall_effect]
      rcases modeCall_spec SetterCall.ImageEffect value _ _ (effect_keys value) with
        ⟨h1, h2⟩ | ⟨h1, e, h2⟩
      · exact Or.inl ⟨hn, h1, h2⟩
      · exact Or.inr ⟨hn, h1, _, h2, rfl⟩
  · exact Or.inl ⟨hn, plannedCall_of_not_recognized hn value hflip vflip⟩

/-- Claim C5. `SetProperty` returns `Failed` exactly when the name is recognized, the value
passed the validation for that property's type, so that exactly one device setter (one serving
that property) was called, and that setter reported failure. A recognized name with a value
that passes validation always reaches its setter, once, and the result is `Success` when the
setter reports success and `Failed` when it reports failure, with the device left as that call
left it. A value that fails validation, or a name that is not recognized, reaches no setter and
yields `InvalidPropertyValue`, respectively `UnknownProperty`. -/
theorem failed_iff_the_setter_failed (cam : XRaspiCamera σ) (name value : String) (s : σ) :
    ((SetProperty cam name value s).1 = XError.Failed ↔
        name ∈ recognizedNames ∧ passesValidation name value = true ∧
          ∃ call, setterCalls cam name value s = [call] ∧ call.serves name = true ∧
            (call.run cam s).1 = false) ∧
      (name ∈ recognizedNames → passesValidation name value = true →
        ∃ call, setterCalls cam name value s = [call] ∧ call.serves name = true ∧
          SetProperty cam name value s =
            (if (call.run cam s).1 = true then XError.Success else XError.Failed,
              (call.run cam s).2)) ∧
      (name ∈ recognizedNames → passesValidation name value = false →
        setterCalls cam name value s = [] ∧
          SetProperty cam name value s = (XError.InvalidPropertyValue, s)) ∧
      (name ∉ recognizedNames →
        setterCalls cam name value s = [] ∧
          SetProperty cam name value s = (XError.UnknownProperty, s)) := by
  rcases plannedCall_spec name value (cam.GetHorizontalFlip s) (cam.GetVerticalFlip s) with
    ⟨hn, hp⟩ | ⟨hn, hv, hp⟩ | ⟨hn, hv, call, hp, hserves⟩
  · obtain ⟨h1, h2⟩ := SetProperty_of_error cam hp
    refine ⟨?_, fun h => absurd h hn, fun h => absurd h hn, fun _ => ⟨h2, h1⟩⟩
    rw [h1]
    exact iff_of_false (by simp) (fun h => hn h.1)
  · obtain ⟨h1, h2⟩ := SetProperty_of_error cam hp
    refine ⟨?_, fun _ h => ?_, fun _ _ => ⟨h2, h1⟩, fun h => absurd hn h⟩
    · rw [h1]
      exact iff_of_false (by simp) (fun h => by rw [hv] at h; exact Bool.false_ne_true h.2.1)
    · rw [hv] at h; exact absurd h Bool.false_ne_true
  · obtain ⟨h1, h2⟩ := SetProperty_of_ok cam hp
    refine ⟨?_, fun _ _ => ⟨call, h2, hserves, h1⟩, fun _ h => ?_, fun h => absurd hn h⟩
    · rw [h1, h2]
      constructor
      · intro hf
        refine ⟨hn, hv, call, rfl, hserves, ?_⟩
        cases hb : (call.run cam s).1
        · rfl
        · rw [hb] at hf; simp at hf
      · rintro ⟨_, _, c, hc, _, hb⟩
        simp only [List.cons.injEq, and_true] at hc
        subst hc
        simp [hb]
    · rw [hv] at h; exact absurd h.symm Bool.false_ne_true

theorem failed_iff_the_setter_failed_witness :
    (SetProperty (statusCamera false) "sharpness" "42" initialSettings).1 = XError.Failed ∧
      (∃ call, setterCalls (statusCamera true) "awb" "Shade" initialSettings = [call] ∧
        call.serves "awb" = true ∧
        SetProperty (statusCamera true) "awb" "Shade" initialSettings =
          (if (call.run (statusCamera true) initialSettings).1 = true then XError.Success
            else XError.Failed, (call.run (statusCamera true) initialSettings).2)) ∧
      (setterCalls (statusCamera false) "sharpness" "abc" initialSettings = [] ∧
        SetProperty (statusCamera false) "sharpness" "abc" initialSettings =
          (XError.InvalidPropertyValue, initialSettings)) :=
  ⟨(failed_iff_the_setter_failed (statusCamera false) "sharpness" "42" initialSettings).1.2
      ⟨by decide, by decide, SetterCall.Sharpness 42, by decide, by decide, by decide⟩,
    (failed_iff_the_setter_failed (statusCamera true) "awb" "Shade" initialSettings).2.1
      (by decide) (by decide),
    (failed_iff_the_setter_failed (statusCamera false) "sharpness" "abc"
      initialSettings).2.2.1 (by decide) (by decide)⟩

end XRaspiCameraConfig
